import Mathlib

/-! Universal Medical History Wallet (frontend): session token coordinator and grant views.

A shallow embedding of `src/api/umhwApi.js` (the axios instance with its request and
response interceptors), of `updateRole` in `src/components/AdminDashboard.js` and of
`getStatusBadge` in `src/components/PatientAccessRequests.js` and
`src/components/DoctorPatientSearch.js`.

Modelling conventions.
* JavaScript `null`/`undefined` is `none`; a value is *truthy* when it is a non-empty string.
* The network is an environment `Env` whose answers may depend on the whole history of
  network events so far, so every deterministic server behaviour is covered.
* Every network call is recorded in `State.log`, in chronological order.
* `umhwApi(config)` is the axios promise chain: request interceptor, dispatch, response
  interceptor. A rejection of the request interceptor skips the dispatch and reaches the
  rejection handler of the response interceptor, as in axios. The chain may re-enter itself,
  so it is defined with fuel; `none` means the fuel ran out.
-/

namespace UmhwApi

/-! ## Data model -/

/-- The part of an axios request config the interceptors read or write:
`method`, `url`, `headers.Authorization`, `headers['x-csrf-token']` and the retry marker. -/
structure Config where
  method : String
  url : String
  authorization : Option String
  xCsrfToken : Option String
  _retry : Bool
deriving DecidableEq, Repr

/-- The `error.response` of a failed call: `status`, `data.message`, `data.error`. The two
texts are strings when present, as the server sends them. -/
structure ErrResponse where
  status : Nat
  message : Option String
  error : Option String
deriving DecidableEq, Repr

/-- An axios error: the config of the call that failed and, when the server answered,
its response. -/
structure AxiosError where
  config : Config
  response : Option ErrResponse
deriving DecidableEq, Repr

/-- A successful response: `status`, the object `data.user` and the rest of the body.
`user` is `none` when the body has no `user`, `some none` when it has a `user` without an
`id`, and `some (some i)` when `data.user.id` is `i`. -/
structure Response where
  status : Nat
  user : Option (Option String)
  body : String
deriving DecidableEq, Repr

/-- Network events, in the order the browser issues them. -/
inductive Event where
  | csrfFetch : Event
  | refresh : Event
  | send : Config → Event
deriving DecidableEq, Repr

/-- Process-wide state: `sessionStorage['accessToken']`, the module variable `csrfToken`,
`window.location.href`, and the history of network calls. -/
structure State where
  accessToken : Option String
  csrfToken : Option String
  location : String
  log : List Event
deriving DecidableEq, Repr

/-- Outcome of a promise: fulfilled with a value or rejected with an axios error. -/
inductive Settled (α : Type) where
  | fulfilled : α → Settled α
  | rejected : AxiosError → Settled α
deriving DecidableEq, Repr

/-- The servers behind the three kinds of network call. Each answer may depend on the
history of events before the call. A failure carries the `error.response`, if any. -/
structure Env where
  csrf : List Event → Except (Option ErrResponse) (Option String)
  refresh : List Event → Except (Option ErrResponse) (Option String)
  server : List Event → Config → Except (Option ErrResponse) Response

/-! ## JavaScript helpers -/

/-- JavaScript truthiness of a value that is a string, `null` or `undefined`. -/
def truthy : Option String → Bool
  | some s => s != ""
  | none => false

/-- String conversion of a value that is a string or `undefined`, as done by template
literals and by `sessionStorage.setItem`. -/
def jsString : Option String → String
  | some s => s
  | none => "undefined"

/-- The function `String.prototype.toLowerCase`, on the ASCII range. No character outside
ASCII lower-cases to a letter of `post`, `put`, `delete` or `patch`. -/
def toLowerCase (s : String) : String :=
  String.mk (s.data.map Char.toLower)

/-- Whether `pat` occurs in the character list, scanning from the left. -/
def includesChars (pat : List Char) : List Char → Bool
  | [] => pat.isEmpty
  | c :: cs => pat.isPrefixOf (c :: cs) || includesChars pat cs

/-- The function `String.prototype.includes`. -/
def includes (s pat : String) : Bool :=
  includesChars pat.data s.data

/-- The test `x?.includes('csrf')`, which is `undefined` (falsy) when `x` is absent. -/
def optIncludes (x : Option String) (pat : String) : Bool :=
  match x with
  | some s => includes s pat
  | none => false

/-! ## `umhwApi.js` -/

/-- Config of the request `axios.get(apiURL + '/csrf-token', { withCredentials: true })`. -/
def csrfRequestConfig : Config :=
  { method := "get", url := "/csrf-token", authorization := none, xCsrfToken := none,
    _retry := false }

/-- Config of the request `axios.post(base + '/auth/refresh-token', {}, ...)`. -/
def refreshRequestConfig : Config :=
  { method := "post", url := "/auth/refresh-token", authorization := none, xCsrfToken := none,
    _retry := false }

/-- The function `fetchCsrfToken`: one GET on the plain axios instance; on success the
module variable is overwritten with `response.data.csrfToken`, on failure the error is
rethrown. -/
def fetchCsrfToken (env : Env) (s : State) : State × Settled (Option String) :=
  match env.csrf s.log with
  | .ok tok =>
      ({ s with csrfToken := tok, log := s.log ++ [Event.csrfFetch] }, .fulfilled tok)
  | .error r =>
      ({ s with log := s.log ++ [Event.csrfFetch] },
        .rejected { config := csrfRequestConfig, response := r })

/-- The test `['post', 'put', 'delete', 'patch'].includes(config.method.toLowerCase())`. -/
def isStateChanging (config : Config) : Bool :=
  ["post", "put", "delete", "patch"].contains (toLowerCase config.method)

/-- Lines 41-45: attach the stored access token as a bearer credential. -/
def attachAccessToken (s : State) (config : Config) : Config :=
  match s.accessToken with
  | some token =>
      if token != "" then { config with authorization := some ("Bearer " ++ token) } else config
  | none => config

/-- The fulfilment handler of `umhwApi.interceptors.request.use`. -/
def requestInterceptor (env : Env) (s : State) (config : Config) : State × Settled Config :=
  let config := attachAccessToken s config
  if isStateChanging config then
    if !truthy s.csrfToken then
      match fetchCsrfToken env s with
      | (s1, .fulfilled _) => (s1, .fulfilled { config with xCsrfToken := s1.csrfToken })
      | (s1, .rejected e) => (s1, .rejected e)
    else
      (s, .fulfilled { config with xCsrfToken := s.csrfToken })
  else
    (s, .fulfilled config)

/-- The test on lines 72-74: status 403 with `'csrf'` in `data.message` or `data.error`. -/
def isCsrfRejection (error : AxiosError) : Bool :=
  match error.response with
  | some r => r.status == 403 && (optIncludes r.message "csrf" || optIncludes r.error "csrf")
  | none => false

/-- The test on line 90: status 401 on a call that does not carry the retry marker. -/
def isUnauthorized (error : AxiosError) : Bool :=
  match error.response with
  | some r => r.status == 401 && !error.config._retry
  | none => false

/-- What the rejection handler of the response interceptor returns:
`umhwApi(originalRequest)` or `Promise.reject(...)`. -/
inductive Handled where
  | reissue : Config → Handled
  | reject : AxiosError → Handled
deriving DecidableEq, Repr

/-- Lines 91-98, up to the suspension at `await axios.post(...)`: the marker is set on the
call and the refresh request goes out. -/
def beginRefresh (s : State) (originalRequest : Config) : State × Config :=
  ({ s with log := s.log ++ [Event.refresh] }, { originalRequest with _retry := true })

/-- Lines 99-110, after the refresh call settled with `answer`. -/
def resumeRefresh (s : State) (originalRequest : Config)
    (answer : Except (Option ErrResponse) (Option String)) : State × Handled :=
  match answer with
  | .ok newAccessToken =>
      ({ s with accessToken := some (jsString newAccessToken) },
        .reissue { originalRequest with
          authorization := some ("Bearer " ++ jsString newAccessToken) })
  | .error r =>
      ({ s with accessToken := none, location := "/" },
        .reject { config := refreshRequestConfig, response := r })

/-- The rejection handler of `umhwApi.interceptors.response.use`. -/
def responseRejected (env : Env) (s : State) (error : AxiosError) : State × Handled :=
  let originalRequest := error.config
  if isCsrfRejection error then
    match fetchCsrfToken env s with
    | (s1, .fulfilled _) => (s1, .reissue { originalRequest with xCsrfToken := s1.csrfToken })
    | (s1, .rejected csrfError) => (s1, .reject csrfError)
  else if isUnauthorized error then
    let started := beginRefresh s originalRequest
    resumeRefresh started.1 started.2 (env.refresh s.log)
  else
    (s, .reject error)

/-- The adapter: the request goes to the server, which answers from the history. -/
def dispatch (env : Env) (s : State) (config : Config) : State × Settled Response :=
  match env.server s.log config with
  | .ok r => ({ s with log := s.log ++ [Event.send config] }, .fulfilled r)
  | .error r =>
      ({ s with log := s.log ++ [Event.send config] },
        .rejected { config := config, response := r })

/-- The request half of the promise chain: request interceptor, then dispatch. A rejection
of the interceptor skips the dispatch. -/
def sendRequest (env : Env) (s : State) (config : Config) : State × Settled Response :=
  match requestInterceptor env s config with
  | (s1, .fulfilled c) => dispatch env s1 c
  | (s1, .rejected e) => (s1, .rejected e)

/-- The call `umhwApi(config)`. The fulfilment handler of the response interceptor is the
identity; the rejection handler may call `umhwApi` again, which costs one unit of fuel. -/
def umhwApi (env : Env) : Nat → State → Config → State × Option (Settled Response)
  | 0, s, _ => (s, none)
  | fuel + 1, s, config =>
    match sendRequest env s config with
    | (s1, .fulfilled r) => (s1, some (.fulfilled r))
    | (s1, .rejected e) =>
      match responseRejected env s1 e with
      | (s2, .reject e2) => (s2, some (.rejected e2))
      | (s2, .reissue c) => umhwApi env fuel s2 c

/-- Whether an event is a request sent through `umhwApi`. -/
def Event.isSend : Event → Bool
  | .send _ => true
  | _ => false

/-- Number of requests sent through `umhwApi` in a history. -/
def sends (log : List Event) : Nat :=
  log.countP Event.isSend

/-- Number of CSRF-token fetches in a history. -/
def csrfFetches (log : List Event) : Nat :=
  log.count Event.csrfFetch

/-- Number of refresh calls in a history. -/
def refreshes (log : List Event) : Nat :=
  log.count Event.refresh

/-! ## Sample inputs -/

/-- A server that accepts every call. -/
def okEnv : Env :=
  { csrf := fun _ => .ok (some "c1"),
    refresh := fun _ => .ok (some "t2"),
    server := fun _ _ => .ok { status := 200, user := none, body := "" } }

/-- A state with no access token and no CSRF token. -/
def emptyState : State :=
  { accessToken := none, csrfToken := none, location := "/app", log := [] }

/-- A logged-in state holding a CSRF token. -/
def readyState : State :=
  { accessToken := some "t1", csrfToken := some "c0", location := "/app", log := [] }

/-- A fresh config for `method` and `url`. -/
def mkConfig (method url : String) : Config :=
  { method := method, url := url, authorization := none, xCsrfToken := none, _retry := false }

/-! ## Interleaved handlers

Several calls can be in flight at once. The rejection handler of the response interceptor
runs without interruption up to its `await`, and other handlers run while it is suspended.
`Sys` holds the process-wide state and, for each call whose response was a rejection, how
far its handler has got. -/

/-- Progress of the rejection handler of one call. -/
inductive Task where
  | failed : AxiosError → Task
  | awaitingCsrf : Config → Task
  | awaitingRefresh : Config → Task
  | reissued : Config → Task
  | surfaced : AxiosError → Task
deriving DecidableEq, Repr

/-- The process-wide state and the calls whose handlers are pending or done. -/
structure Sys where
  state : State
  tasks : List Task
deriving DecidableEq, Repr

/-- The handler of call `i` runs from its start to its first `await` (or to its end when
it awaits nothing). -/
def startHandler (i : Nat) (sys : Sys) : Sys :=
  match sys.tasks[i]? with
  | some (.failed error) =>
    if isCsrfRejection error then
      { state := { sys.state with log := sys.state.log ++ [Event.csrfFetch] },
        tasks := sys.tasks.set i (.awaitingCsrf error.config) }
    else if isUnauthorized error then
      let started := beginRefresh sys.state error.config
      { state := started.1, tasks := sys.tasks.set i (.awaitingRefresh started.2) }
    else
      { sys with tasks := sys.tasks.set i (.surfaced error) }
  | _ => sys

/-- The network call awaited by the handler of call `i` settles with `answer` and the
handler runs to its end. -/
def deliver (i : Nat) (answer : Except (Option ErrResponse) (Option String)) (sys : Sys) :
    Sys :=
  match sys.tasks[i]? with
  | some (.awaitingRefresh originalRequest) =>
    match resumeRefresh sys.state originalRequest answer with
    | (s, .reissue c) => { state := s, tasks := sys.tasks.set i (.reissued c) }
    | (s, .reject e) => { state := s, tasks := sys.tasks.set i (.surfaced e) }
  | some (.awaitingCsrf originalRequest) =>
    match answer with
    | .ok tok =>
      { state := { sys.state with csrfToken := tok },
        tasks := sys.tasks.set i (.reissued { originalRequest with xCsrfToken := tok }) }
    | .error r =>
      { sys with
        tasks := sys.tasks.set i (.surfaced { config := csrfRequestConfig, response := r }) }
  | _ => sys

/-- The final progress of a handler that returned `h`. -/
def Handled.toTask : Handled → Task
  | .reissue c => .reissued c
  | .reject e => .surfaced e

/-- The handlers of the calls `idxs` start one after the other, none of the awaited
network calls having settled yet. -/
def startAll (idxs : List Nat) (sys : Sys) : Sys :=
  idxs.foldl (fun acc i => startHandler i acc) sys

/-- A 401 answer. -/
def unauthorized : ErrResponse :=
  { status := 401, message := none, error := none }

/-- Two calls in flight, both answered 401, neither marked as retried. -/
def twoFailedCalls : Sys :=
  { state := readyState,
    tasks := [.failed { config := { mkConfig "get" "/a" with
                          authorization := some "Bearer t1" },
                        response := some unauthorized },
              .failed { config := { mkConfig "get" "/b" with
                          authorization := some "Bearer t1" },
                        response := some unauthorized }] }

/-- A server that answers every call through `umhwApi` with 401 and every refresh call with
the token `t2`. -/
def alwaysUnauthorizedEnv : Env :=
  { csrf := fun _ => .ok (some "c1"),
    refresh := fun _ => .ok (some "t2"),
    server := fun _ _ => .error (some unauthorized) }

/-- A server that answers every call through `umhwApi` with 401 and on which the refresh
call fails with 403. -/
def refreshFailsEnv : Env :=
  { csrf := fun _ => .ok (some "c1"),
    refresh := fun _ => .error (some { status := 403, message := none, error := none }),
    server := fun _ _ => .error (some unauthorized) }

/-- A server that answers every call through `umhwApi` with 500. -/
def serverErrorEnv : Env :=
  { csrf := fun _ => .ok (some "c1"),
    refresh := fun _ => .ok (some "t2"),
    server := fun _ _ => .error (some { status := 500, message := none, error := none }) }

/-- A server that rejects every call through `umhwApi` with 403 `invalid csrf token` and
hands out a CSRF token whenever asked. -/
def csrfRejectingEnv : Env :=
  { csrf := fun _ => .ok (some "c1"),
    refresh := fun _ => .ok (some "t2"),
    server := fun _ _ =>
      .error (some { status := 403, message := some "invalid csrf token", error := none }) }

end UmhwApi

/-! ## `AdminDashboard.js` -/

namespace AdminDashboard

open UmhwApi

/-- A row of the user table. -/
structure User where
  id : String
  role : String
  updating : Bool
deriving DecidableEq, Repr

/-- The component state `updateRole` touches, and the alerts shown. -/
structure Page where
  users : List User
  error : String
  successMessage : String
  alerts : List String
deriving DecidableEq, Repr

/-- The `catch` block of `updateRole`. -/
def updateRoleFailed (s : State) (page : Page) (id : String) : State × Page :=
  (s, { page with
    error := "Failed to update role",
    users := page.users.map (fun (u : User) => if u.id = id then { u with updating := false } else u) })

/-- The function `updateRole(id, role)`. Its three calls go through `umhwApi`, each with
`fuel`; `none` means a call ran out of fuel. Reading `current.data.user.id` throws when the
profile response has no `user`; a `user` without an `id` compares unequal to `id`. The
timer that clears the success message is left out. -/
def updateRole (env : Env) (fuel : Nat) (s : State) (page : Page) (id role : String) :
    Option (State × Page) :=
  let page1 : Page := { page with
    users := page.users.map (fun (u : User) => if u.id = id then { u with updating := true } else u) }
  match umhwApi env fuel s (mkConfig "put" ("/admin/users/" ++ id ++ "/role")) with
  | (_, none) => none
  | (s1, some (.rejected _)) => some (updateRoleFailed s1 page1 id)
  | (s1, some (.fulfilled _)) =>
    let page2 : Page := { page1 with
      users := page1.users.map (fun (u : User) =>
        if u.id = id then { u with role := role, updating := false } else u) }
    let page3 : Page := { page2 with successMessage := "✅ Role updated successfully" }
    match umhwApi env fuel s1 (mkConfig "get" "/profile/profile") with
    | (_, none) => none
    | (s2, some (.rejected _)) => some (updateRoleFailed s2 page3 id)
    | (s2, some (.fulfilled current)) =>
      match current.user with
      | none => some (updateRoleFailed s2 page3 id)
      | some userId =>
        if userId = some id ∧ role ≠ "admin" then
          let page4 : Page := { page3 with
            alerts := page3.alerts ++ ["You changed your own role – you will be logged out."] }
          match umhwApi env fuel s2 (mkConfig "post" "/auth/logout") with
          | (_, none) => none
          | (s3, some (.rejected _)) => some (updateRoleFailed s3 page4 id)
          | (s3, some (.fulfilled _)) =>
            some ({ s3 with accessToken := none, location := "/" }, page4)
        else
          some (s2, page3)

/-- A server on which the role change and the profile lookup succeed and the logout call
fails without a response; the profile is that of user `7`. -/
def logoutFailsEnv : Env :=
  { csrf := fun _ => .ok (some "c1"),
    refresh := fun _ => .ok (some "t2"),
    server := fun _ c =>
      if c.url = "/auth/logout" then .error none
      else .ok { status := 200, user := some (some "7"), body := "" } }

/-- A server that accepts every call; the profile is that of user `7`. -/
def allSucceedEnv : Env :=
  { csrf := fun _ => .ok (some "c1"),
    refresh := fun _ => .ok (some "t2"),
    server := fun _ _ => .ok { status := 200, user := some (some "7"), body := "" } }

/-- The admin table holding the acting admin `7` and a patient `8`. -/
def samplePage : Page :=
  { users := [{ id := "7", role := "admin", updating := false },
              { id := "8", role := "patient", updating := false }],
    error := "", successMessage := "", alerts := [] }

end AdminDashboard

/-! ## `getStatusBadge` -/

namespace AccessRequests

/-- What `getStatusBadge` returns: a `<span className=...>text</span>`, `null`, or, for a
status that names a property of `Object.prototype`, that inherited property. -/
inductive Badge where
  | span : String → String → Badge
  | null : Badge
  | inherited : String → Badge
deriving DecidableEq, Repr

/-- The comparison `a > b` of two dates, `none` being an invalid date: every comparison
with an invalid date is false. -/
def dateGt (a b : Option Int) : Bool :=
  match a, b with
  | some x, some y => decide (y < x)
  | _, _ => false

/-- Property names every object literal inherits from `Object.prototype`. -/
def objectPrototypeKeys : List String :=
  ["constructor", "__defineGetter__", "__defineSetter__", "hasOwnProperty",
   "__lookupGetter__", "__lookupSetter__", "isPrototypeOf", "propertyIsEnumerable",
   "toString", "valueOf", "__proto__", "toLocaleString"]

end AccessRequests

namespace PatientAccessRequests

open AccessRequests

/-- The function `getStatusBadge(status, expiresAt)` of `PatientAccessRequests.js`, with
`new Date()` passed as `now` and `new Date(expiresAt)` as `expiresAt`. -/
def getStatusBadge (now : Int) (status : String) (expiresAt : Option Int) : Badge :=
  let isExpired := dateGt (some now) expiresAt
  if isExpired && status == "pending" then
    .span "status-badge status-rejected" "⏱️ Expired"
  else if status == "pending" then .span "status-badge status-pending" "⏳ Pending"
  else if status == "approved" then .span "status-badge status-approved" "✅ Approved"
  else if status == "denied" then .span "status-badge status-rejected" "❌ Denied"
  else if objectPrototypeKeys.contains status then .inherited status
  else .null

end PatientAccessRequests

namespace DoctorPatientSearch

open AccessRequests

/-- The function `getStatusBadge(status, expiresAt)` of `DoctorPatientSearch.js`, with
`new Date()` passed as `now` and `new Date(expiresAt)` as `expiresAt`. -/
def getStatusBadge (now : Int) (status : String) (expiresAt : Option Int) : Badge :=
  let isExpired := dateGt (some now) expiresAt
  if isExpired && status == "pending" then
    .span "status-badge status-rejected" "⏱️ EXPIRED"
  else if status == "pending" then .span "status-badge status-pending" "⏳ PENDING"
  else if status == "approved" then .span "status-badge status-approved" "✅ APPROVED"
  else if status == "denied" then .span "status-badge status-rejected" "❌ DENIED"
  else if objectPrototypeKeys.contains status then .inherited status
  else .null

end DoctorPatientSearch

/-! ## JavaScript numbers and durations -/

/-- A JavaScript number as the components meet it: a finite value or `NaN`. Finite values
are taken in `ℚ`, which holds every finite double; the components only compare numbers for
equality with literals and convert them to strings. -/
inductive JsNumber where
  | finite : ℚ → JsNumber
  | nan : JsNumber
deriving DecidableEq

namespace JsNumber

/-- JavaScript truthiness of a number: `0` and `NaN` are falsy. -/
def truthy : JsNumber → Bool
  | finite q => decide (q ≠ 0)
  | nan => false

end JsNumber

namespace Durations

/-- The enumerated preset set of the specification, in hours:
0.5, 1, 24, 48, 72, 168, 336, 720. -/
def enumeratedPresets : List JsNumber :=
  [.finite 0.5, .finite 1, .finite 24, .finite 48, .finite 72, .finite 168, .finite 336,
   .finite 720]

/-- A `<select>` whose `onChange` stores `Number(e.target.value)`: choosing option `i`
stores the value of that option; an index outside the menu changes nothing. -/
def choose (options : List JsNumber) (current : JsNumber) (i : Nat) : JsNumber :=
  match options[i]? with
  | some v => v
  | none => current

end Durations

namespace PatientAccessRequests

/-- The function `getDurationLabel(hours)` of `PatientAccessRequests.js`. The conversion
of a number to a string in the template literal is the parameter `toStr`. -/
def getDurationLabel (toStr : JsNumber → String) (hours : JsNumber) : String :=
  if hours = .finite 0.5 then "30 Minutes"
  else if hours = .finite 1 then "1 Hour"
  else if hours = .finite 24 then "24 Hours (1 Day)"
  else if hours = .finite 48 then "48 Hours (2 Days)"
  else if hours = .finite 72 then "72 Hours (3 Days)"
  else if hours = .finite 168 then "1 Week"
  else if hours = .finite 336 then "2 Weeks"
  else if hours = .finite 720 then "30 Days"
  else toStr hours ++ " Hours"

/-- The `value` attributes of the options of the menu "Approve for how long?", in order. -/
def durationOptions : List JsNumber :=
  [.finite 0.5, .finite 1, .finite 24, .finite 48, .finite 72, .finite 168, .finite 336,
   .finite 720]

/-- The state `customDurations`: the duration chosen for a request id, if any. Request ids
are the ids the server issues; none of them names a property of `Object.prototype`. -/
abbrev CustomDurations := String → Option JsNumber

/-- The `onChange` of the duration menu of request `id`, the patient choosing option `i`:
`setCustomDurations({ ...customDurations, [id]: Number(e.target.value) })`. -/
def selectDuration (customDurations : CustomDurations) (id : String) (i : Nat) :
    CustomDurations :=
  match durationOptions[i]? with
  | some v => fun k => if k = id then some v else customDurations k
  | none => customDurations

/-- The body of the PUT `/access-requests/:id/respond`. -/
structure RespondRequest where
  url : String
  action : String
  customDurationHours : Option JsNumber
deriving DecidableEq

/-- The function `handleRespond(requestId, action, requestedDuration)` up to its network
call: the request it sends, or `none` when the patient declines the confirmation.
`confirm` is the answer of `window.confirm` to a prompt. The deny branch does not read
`requestedDuration`. -/
def handleRespond (toStr : JsNumber → String) (confirm : String → Bool)
    (customDurations : CustomDurations) (requestId action : String)
    (requestedDuration : JsNumber) : Option RespondRequest :=
  if action = "deny" then
    if !confirm "Deny access to this doctor?" then none
    else some { url := "/access-requests/" ++ requestId ++ "/respond", action := action,
                customDurationHours := none }
  else
    let customDuration :=
      match customDurations requestId with
      | some v => if v.truthy then v else requestedDuration
      | none => requestedDuration
    let confirmMessage :=
      "Allow this doctor to access your medical records for " ++
        getDurationLabel toStr customDuration ++ "?"
    if !confirm confirmMessage then none
    else some { url := "/access-requests/" ++ requestId ++ "/respond", action := action,
                customDurationHours := some customDuration }

end PatientAccessRequests

namespace DoctorPatientSearch

/-- The function `getDurationLabel(hours)` of `DoctorPatientSearch.js`. The conversion of
a number to a string in the template literal is the parameter `toStr`. -/
def getDurationLabel (toStr : JsNumber → String) (hours : JsNumber) : String :=
  if hours = .finite 0.5 then "30 Minutes"
  else if hours = .finite 1 then "1 Hour"
  else if hours = .finite 24 then "24 Hours (1 Day)"
  else if hours = .finite 48 then "48 Hours (2 Days)"
  else if hours = .finite 72 then "72 Hours (3 Days)"
  else if hours = .finite 168 then "1 Week"
  else if hours = .finite 336 then "2 Weeks"
  else if hours = .finite 720 then "30 Days"
  else toStr hours ++ " Hours"

/-- The `value` attributes of the options of the menu "Access Duration", in order. -/
def durationOptions : List JsNumber :=
  [.finite 0.5, .finite 1, .finite 24, .finite 48, .finite 72, .finite 168, .finite 336,
   .finite 720]

/-- The initial state `requestDuration`, `useState(48)`. -/
def initialDuration : JsNumber := .finite 48

/-- What the doctor does with the duration of the request form: choose option `i` of the
menu, or submit the form with the server accepting or rejecting the request. -/
inductive FormEvent where
  | select : Nat → FormEvent
  | submitAccepted : FormEvent
  | submitRejected : FormEvent
deriving DecidableEq

/-- The state `requestDuration` after an event: a choice stores the option, an accepted
submit runs `setRequestDuration(48)`, a rejected one keeps the value. -/
def stepDuration (requestDuration : JsNumber) : FormEvent → JsNumber
  | .select i => Durations.choose durationOptions requestDuration i
  | .submitAccepted => .finite 48
  | .submitRejected => requestDuration

/-- The state `requestDuration` after a sequence of events. -/
def durationAfter (events : List FormEvent) : JsNumber :=
  events.foldl stepDuration initialDuration

/-- The `durationHours` of the body `handleRequestAccess` posts to `/access-requests`
after the events `events`. -/
def submittedDurationHours (events : List FormEvent) : JsNumber :=
  durationAfter events

end DoctorPatientSearch

/-! ## `EmergencyQR.js` -/

namespace EmergencyQR

/-- The `value` attributes of the options of the menu "How long should the QR code work?",
in order. -/
def durationOptions : List JsNumber :=
  [.finite 1, .finite 6, .finite 12, .finite 24, .finite 48, .finite 72, .finite 168]

/-- The initial state `duration`, `useState(24)`. -/
def initialDuration : JsNumber := .finite 24

/-- The state `duration` after the user chose the options `choices` one after the other. -/
def durationAfter (choices : List Nat) : JsNumber :=
  choices.foldl (Durations.choose durationOptions) initialDuration

/-- The `durationHours` of the body `generateQR` posts to `/qr/generate` after the
choices `choices`. -/
def submittedDurationHours (choices : List Nat) : JsNumber :=
  durationAfter choices

end EmergencyQR

/-! ## Sample inputs for the duration functions -/

namespace Durations

/-- A conversion of numbers to strings that agrees with JavaScript on the integers and on
`NaN`; other values are not used with it. -/
def sampleToString : JsNumber → String
  | .finite q => if q.den = 1 then toString q.num else "?"
  | .nan => "NaN"

/-- A user who accepts every confirmation prompt. -/
def alwaysConfirm : String → Bool := fun _ => true

/-- The state `customDurations` before any duration was chosen, `useState({})`. -/
def noCustomDurations : PatientAccessRequests.CustomDurations := fun _ => none

end Durations

/-! ## `PatientAccessRequests.js`: the request cards -/

namespace PatientAccessRequests

open AccessRequests

/-- An access request as the server lists it: the fields the list view reads. -/
structure AccessRequest where
  id : String
  status : String
  expiresAt : Option Int
  createdAt : Option Int
  requestedDuration : Option JsNumber
deriving DecidableEq

/-- Line 176: `new Date() > new Date(request.expiresAt)`. -/
def isExpired (now : Int) (request : AccessRequest) : Bool :=
  dateGt (some now) request.expiresAt

/-- Line 177: `request.status === 'pending' && !isExpired`. -/
def isPending (now : Int) (request : AccessRequest) : Bool :=
  request.status == "pending" && !isExpired now request

/-- The list `filteredRequests` for the selected tab `filter`. -/
def filteredRequests (now : Int) (filter : String) (requests : List AccessRequest) :
    List AccessRequest :=
  requests.filter fun req =>
    if filter == "all" then true
    else
      let isExpired := dateGt (some now) req.expiresAt
      if filter == "pending" then req.status == "pending" && !isExpired
      else req.status == filter

/-- The interactive controls a request card can carry: the duration menu, the approve
button and the deny button. -/
inductive Control where
  | durationMenu : Control
  | approve : Control
  | deny : Control
deriving DecidableEq

/-- Lines 228-273: the controls of the card of `request`, rendered under `isPending &&`. -/
def cardControls (now : Int) (request : AccessRequest) : List Control :=
  if isPending now request then [.durationMenu, .approve, .deny] else []

/-- The cards of the list view: one per request of `filteredRequests`, with its controls. -/
def renderedCards (now : Int) (filter : String) (requests : List AccessRequest) :
    List (AccessRequest × List Control) :=
  (filteredRequests now filter requests).map fun request =>
    (request, cardControls now request)

/-- A pending request that expires at instant 20. -/
def sampleRequest : AccessRequest :=
  { id := "r1", status := "pending", expiresAt := some 20, createdAt := some 0,
    requestedDuration := none }

end PatientAccessRequests

/-! ## `TokenManagement.js` -/

namespace TokenManagement

open AccessRequests

/-- A share token as `/share/manage` lists it. -/
structure ShareToken where
  id : String
  sharedWithEmail : Option String
  createdAt : Option Int
  expiresAt : Option Int
  shareUrl : Option String
deriving DecidableEq

/-- What the card of a token shows: the class of the card, the status text, the share URL
when its block is rendered, and the revoke button (disabled or not, with its label). -/
structure TokenCard where
  className : String
  statusText : String
  shareUrl : Option String
  revokeDisabled : Bool
  revokeLabel : String
deriving DecidableEq

/-- Lines 106-186: the card of `token` at the instant `now`. -/
def tokenCard (now : Int) (token : ShareToken) : TokenCard :=
  let isExpired := dateGt (some now) token.expiresAt
  { className := "token-card " ++ (if isExpired then "expired" else "active"),
    statusText := if isExpired then "❌ EXPIRED" else "✅ ACTIVE",
    shareUrl := if UmhwApi.truthy token.shareUrl && !isExpired then token.shareUrl else none,
    revokeDisabled := isExpired,
    revokeLabel := if isExpired then "Already Expired" else "Revoke Access Now" }

/-- A share token that expires at instant 10. -/
def sampleToken : ShareToken :=
  { id := "s1", sharedWithEmail := none, createdAt := some 0, expiresAt := some 10,
    shareUrl := some "u" }

end TokenManagement

/-! ## `EmergencyQR.js`: revoking a code -/

namespace EmergencyQR

open UmhwApi

/-- An entry of `activeTokens`. -/
structure QrToken where
  id : String
  createdAt : Option Int
  expiresAt : Option Int
  usageCount : Nat
deriving DecidableEq

/-- The state `qrData` when a code is displayed; `id` is absent when the response of
`/qr/generate` carried none. -/
structure QrData where
  id : Option String
  shareUrl : String
  qrCodeDataUrl : String
deriving DecidableEq

/-- The component state `revokeToken` reads and writes. -/
structure Page where
  qrData : Option QrData
  activeTokens : List QrToken
  error : String
deriving DecidableEq

/-- The function `revokeToken(tokenId)`. `confirm` is the answer of `window.confirm`; the
DELETE goes through `umhwApi` with `fuel`, and `none` means it ran out of fuel. -/
def revokeToken (env : Env) (fuel : Nat) (confirm : String → Bool) (s : State) (page : Page)
    (tokenId : String) : Option (State × Page) :=
  if !confirm "Are you sure you want to revoke this QR code? It will no longer work." then
    some (s, page)
  else
    match umhwApi env fuel s (mkConfig "delete" ("/qr/" ++ tokenId)) with
    | (_, none) => none
    | (s1, some (.rejected _)) => some (s1, { page with error := "Failed to revoke QR code" })
    | (s1, some (.fulfilled _)) =>
      let page1 : Page :=
        { page with activeTokens := page.activeTokens.filter (fun t => t.id != tokenId) }
      match page1.qrData with
      | some qrData =>
        if qrData.id = some tokenId then some (s1, { page1 with qrData := none })
        else some (s1, page1)
      | none => some (s1, page1)

/-- A page showing the code `q1` with the active codes `q1`, `q2`, `q3`. -/
def samplePage : Page :=
  { qrData := some { id := some "q1", shareUrl := "u", qrCodeDataUrl := "d" },
    activeTokens := [{ id := "q1", createdAt := some 0, expiresAt := some 10, usageCount := 0 },
                     { id := "q2", createdAt := some 1, expiresAt := some 11, usageCount := 2 },
                     { id := "q3", createdAt := some 2, expiresAt := some 12, usageCount := 0 }],
    error := "" }

end EmergencyQR

/-! ## `App.js` -/

namespace App

/-- The payload of a token as far as the router reads it: `role` and `email`, each absent
when the payload has no such text. -/
structure Payload where
  role : Option String
  email : Option String
deriving DecidableEq

/-- What `JSON.parse(atob(t.split('.')[1]))` does on a token: it throws, or returns a
falsy value, or returns a truthy value, of which `role` and `email` are read. -/
inductive Parsed where
  | throws : Parsed
  | falsy : Parsed
  | value : Payload → Parsed
deriving DecidableEq

/-- The function `decodeToken(t)`; `parse` stands for `JSON.parse(atob(t.split('.')[1]))`.
The result `none` is `null` or a falsy payload, which line 39 treats alike. -/
def decodeToken (parse : String → Parsed) (t : Option String) : Option Payload :=
  match t with
  | none => none
  | some tok =>
    if tok = "" then none
    else
      match parse tok with
      | .throws => none
      | .falsy => none
      | .value payload => some payload

/-- Line 25: `isLogged = !!token`. -/
def isLogged (token : Option String) : Bool :=
  UmhwApi.truthy token

/-- Line 39: `role = userPayload ? userPayload.role : null`. -/
def roleOf (parse : String → Parsed) (token : Option String) : Option String :=
  match decodeToken parse token with
  | some userPayload => userPayload.role
  | none => none

/-- The routes of the table, in the order of the source. -/
inductive Route where
  | emergency : Route
  | verifyEmail : Route
  | twoFactorLogin : Route
  | twoFactorSettings : Route
  | root : Route
  | dashboard : Route
  | admin : Route
  | records : Route
  | resetPassword : Route
  | shareView : Route
  | fallback : Route
deriving DecidableEq

/-- The `path` of a route. -/
def Route.path : Route → String
  | .emergency => "/emergency/:token"
  | .verifyEmail => "/verify-email"
  | .twoFactorLogin => "/2fa-login"
  | .twoFactorSettings => "/2fa-settings"
  | .root => "/"
  | .dashboard => "/dashboard"
  | .admin => "/admin"
  | .records => "/records"
  | .resetPassword => "/reset-password/:token"
  | .shareView => "/share/view"
  | .fallback => "*"

/-- What a route renders: a component, or `<Navigate to=... replace />`. -/
inductive Element where
  | component : String → Element
  | navigate : String → Element
deriving DecidableEq

/-- The `element` of each route, for the login state and the decoded role. -/
def routeElement (isLogged : Bool) (role : Option String) : Route → Element
  | .emergency => .component "EmergencyViewer"
  | .verifyEmail => .component "EmailVerification"
  | .twoFactorLogin => .component "TwoFactorLogin"
  | .twoFactorSettings =>
    if isLogged && role != some "admin" then .component "TwoFactorSettings"
    else .navigate (if role = some "admin" then "/admin" else "/")
  | .root =>
    if isLogged then
      if role = some "admin" then .navigate "/admin" else .navigate "/dashboard"
    else .component "AuthForm"
  | .dashboard =>
    if isLogged then
      if role = some "admin" then .navigate "/admin" else .component "Dashboard"
    else .navigate "/"
  | .admin =>
    if isLogged && role == some "admin" then .component "AdminDashboard"
    else .navigate "/"
  | .records =>
    if isLogged && role != some "admin" then .component "MedicalRecordsPage"
    else .navigate (if role = some "admin" then "/admin" else "/")
  | .resetPassword => .component "ResetPassword"
  | .shareView => .component "SharedRecordsViewer"
  | .fallback =>
    .navigate (if isLogged then (if role = some "admin" then "/admin" else "/dashboard")
      else "/")

/-- The element the table renders for `route` when `token` is the stored access token. -/
def render (parse : String → Parsed) (token : Option String) (route : Route) : Element :=
  routeElement (isLogged token) (roleOf parse token) route

/-- A decoder on which nothing decodes. -/
def parseThrows : String → Parsed := fun _ => .throws

/-- A decoder for sample inputs: the token `admin.jwt` carries the role `admin`, the token
`patient.jwt` the role `patient`, and nothing else decodes. -/
def parseSample : String → Parsed := fun t =>
  if t = "admin.jwt" then .value { role := some "admin", email := none }
  else if t = "patient.jwt" then .value { role := some "patient", email := none }
  else .throws

end App

/-! ## Password checks of `AuthForm.js` and `ResetPassword.js` -/

namespace Password

/-- The property `length` of a JavaScript string: its number of UTF-16 code units. A
character outside the basic plane counts for two. -/
def jsLength (s : String) : Nat :=
  (s.data.map fun c => if 65536 ≤ c.toNat then 2 else 1).sum

/-- The characters `.` does not match: line feed, carriage return, U+2028 and U+2029. -/
def isLineTerminator (c : Char) : Bool :=
  c.toNat == 10 || c.toNat == 13 || c.toNat == 8232 || c.toNat == 8233

/-- The lookahead `(?=.*[cls])` at the start of the character list: some character of the
class is reached over characters that are not line terminators. -/
def lookaheadAt (cls : Char → Bool) : List Char → Bool
  | [] => false
  | c :: cs => cls c || (!isLineTerminator c && lookaheadAt cls cs)

/-- The call `/(?=.*[cls])/.test(s)`: the lookahead succeeds at some position of `s`. -/
def regexTest (cls : Char → Bool) : List Char → Bool
  | [] => false
  | c :: cs => lookaheadAt cls (c :: cs) || regexTest cls cs

/-- The class `[a-z]`. -/
def isLower (c : Char) : Bool := 97 ≤ c.toNat && c.toNat ≤ 122

/-- The class `[A-Z]`. -/
def isUpper (c : Char) : Bool := 65 ≤ c.toNat && c.toNat ≤ 90

/-- The class `\d` of a regular expression without the `u` flag: `[0-9]`. -/
def isDigit (c : Char) : Bool := 48 ≤ c.toNat && c.toNat ≤ 57

/-- The password rule as the claim words it: at least 8 characters, with at least one
lowercase letter a-z, one uppercase letter A-Z and one digit 0-9. -/
def meetsPolicy (password : String) : Prop :=
  8 ≤ password.length ∧ (∃ c ∈ password.data, isLower c = true) ∧
    (∃ c ∈ password.data, isUpper c = true) ∧ (∃ c ∈ password.data, isDigit c = true)

/-- The password rule with the length that `password.length` measures: at least 8 UTF-16
code units, with at least one lowercase letter a-z, one uppercase letter A-Z and one
digit 0-9. -/
def meetsCodeUnitPolicy (password : String) : Prop :=
  8 ≤ jsLength password ∧ (∃ c ∈ password.data, isLower c = true) ∧
    (∃ c ∈ password.data, isUpper c = true) ∧ (∃ c ∈ password.data, isDigit c = true)

end Password

namespace AuthForm

open Password

/-- The fields of the component state `submit` reads. -/
structure Form where
  formType : String
  email : String
  password : String
  username : String
  usernameStatus : Option String
  role : String
  token : String
deriving DecidableEq

/-- The body of a POST; a field is absent when the call does not send it. -/
structure PostBody where
  email : Option String
  password : Option String
  role : Option String
  username : Option String
  token : Option String
deriving DecidableEq

/-- What a submit handler does before it awaits anything: it sets a message and returns,
or posts a body to a URL, or (for a form type it does not know) does neither. -/
inductive Submitted where
  | message : String → Submitted
  | post : String → PostBody → Submitted
  | nothing : Submitted
deriving DecidableEq

/-- The function `submit` up to its network call. `toLower` stands for
`String.prototype.toLowerCase`. -/
def submit (toLower : String → String) (form : Form) : Submitted :=
  if form.formType = "register" then
    if form.username = "" ∨ jsLength form.username < 3 then .message "❌ Username is required (minimum 3 characters)"
    else if form.usernameStatus = some "taken" then .message "❌ Username is already taken. Please choose another."
    else if jsLength form.password < 8 then .message "❌ Password must be at least 8 characters long"
    else if !regexTest isLower form.password.data then .message "❌ Password must contain at least one lowercase letter"
    else if !regexTest isUpper form.password.data then .message "❌ Password must contain at least one uppercase letter"
    else if !regexTest isDigit form.password.data then .message "❌ Password must contain at least one number"
    else .post "/auth/register"
      { email := some form.email, password := some form.password, role := some form.role,
        username := some (toLower form.username), token := none }
  else if form.formType = "login" then
    .post "/auth/login"
      { email := some form.email, password := some form.password, role := none,
        username := none, token := none }
  else if form.formType = "forgot" then
    .post "/auth/request-password-reset"
      { email := some form.email, password := none, role := none, username := none,
        token := none }
  else if form.formType = "reset" then
    if jsLength form.password < 8 then .message "❌ Password must be at least 8 characters long"
    else if !regexTest isLower form.password.data then .message "❌ Password must contain at least one lowercase letter"
    else if !regexTest isUpper form.password.data then .message "❌ Password must contain at least one uppercase letter"
    else if !regexTest isDigit form.password.data then .message "❌ Password must contain at least one number"
    else .post "/auth/reset-password"
      { email := none, password := some form.password, role := none, username := none,
        token := some form.token }
  else .nothing

/-- A registration form with an acceptable password. -/
def sampleRegister : Form :=
  { formType := "register", email := "a@b.c", password := "MyPass123", username := "john",
    usernameStatus := some "available", role := "patient", token := "" }

/-- A registration form whose password has six characters, three of them outside the basic
plane, so that its `length` is 8. -/
def emojiRegister : Form :=
  { formType := "register", email := "a@b.c", password := "Aa1😀😀x", username := "john",
    usernameStatus := some "available", role := "patient", token := "" }

/-- A reset form with the same six-character password. -/
def emojiReset : Form :=
  { formType := "reset", email := "", password := "Aa1😀😀x", username := "",
    usernameStatus := none, role := "patient", token := "tok" }

/-- A reset form with an acceptable password. -/
def sampleReset : Form :=
  { formType := "reset", email := "", password := "MyPass123", username := "",
    usernameStatus := none, role := "patient", token := "tok" }

end AuthForm

namespace ResetPassword

open Password AuthForm

/-- The function `handleSubmit` up to its network call, on the state `token`, `password`,
`confirmPassword`. -/
def handleSubmit (token password confirmPassword : String) : Submitted :=
  if token = "" then .message "❌ Invalid or missing reset token."
  else if password ≠ confirmPassword then .message "❌ Passwords do not match."
  else if jsLength password < 8 then .message "❌ Password must be at least 8 characters long"
  else if !regexTest isLower password.data then .message "❌ Password must contain at least one lowercase letter"
  else if !regexTest isUpper password.data then .message "❌ Password must contain at least one uppercase letter"
  else if !regexTest isDigit password.data then .message "❌ Password must contain at least one number"
  else .post "/auth/reset-password"
    { email := none, password := some password, role := none, username := none,
      token := some token }

end ResetPassword

/-! ## `MedicalRecordForm.js`: attaching a file -/

namespace MedicalRecordForm

/-- The fields of a `File` the form reads. -/
structure File where
  name : String
  type : String
  size : Nat
deriving DecidableEq

/-- The component state `handleFileChange` writes. -/
structure FormState where
  file : Option File
  filePreview : Option String
  error : String
deriving DecidableEq

/-- The constant `ALLOWED_TYPES`. -/
def ALLOWED_TYPES : List String :=
  ["image/jpeg", "image/png", "image/webp", "application/pdf"]

/-- The constant `MAX_SIZE`. -/
def MAX_SIZE : Nat := 10 * 1024 * 1024

/-- The effects of `handleFileChange`: the new component state, whether the file input
was emptied (`e.target.value = ''`), and the file handed to a `FileReader`, if any. -/
structure FileChange where
  state : FormState
  inputCleared : Bool
  reading : Option File
deriving DecidableEq

/-- The function `handleFileChange`, `selectedFile` being `e.target.files[0]`. -/
def handleFileChange (s : FormState) (selectedFile : Option File) : FileChange :=
  match selectedFile with
  | none =>
    { state := { s with file := none, filePreview := none }, inputCleared := false,
      reading := none }
  | some selected =>
    if !ALLOWED_TYPES.contains selected.type then
      { state := { file := none, filePreview := none, error := "❌ Invalid file type. Allowed: JPEG, PNG, WEBP, PDF" },
        inputCleared := true, reading := none }
    else if selected.size > MAX_SIZE then
      { state := { file := none, filePreview := none, error := "❌ File too large. Maximum size is 10MB" },
        inputCleared := true, reading := none }
    else if "image/".data.isPrefixOf selected.type.data then
      { state := { s with file := some selected, error := "" }, inputCleared := false,
        reading := some selected }
    else
      { state := { file := some selected, filePreview := none, error := "" },
        inputCleared := false, reading := none }

/-- The callback `reader.onloadend`: the preview becomes the result of the reader. -/
def onloadend (s : FormState) (result : Option String) : FormState :=
  { s with filePreview := result }

/-- A form with nothing attached. -/
def emptyForm : FormState :=
  { file := none, filePreview := none, error := "" }

/-- A PDF of one megabyte. -/
def samplePdf : File :=
  { name := "scan.pdf", type := "application/pdf", size := 1024 * 1024 }

end MedicalRecordForm

/-! ## `Header.js` -/

namespace Header

open UmhwApi

/-- The function `handleLogout`: the logout call goes through `umhwApi` with `fuel`
(`none` when it runs out of fuel); its failure is caught and logged; the `finally` block
removes the access token and navigates to `/`. The result is how the returned promise
settles. -/
def handleLogout (env : Env) (fuel : Nat) (s : State) : Option (State × Settled Unit) :=
  match umhwApi env fuel s (mkConfig "post" "/auth/logout") with
  | (_, none) => none
  | (s1, some (.fulfilled _)) =>
    some ({ s1 with accessToken := none, location := "/" }, .fulfilled ())
  | (s1, some (.rejected _)) =>
    some ({ s1 with accessToken := none, location := "/" }, .fulfilled ())

end Header

/-! ## `Pagination.js` -/

namespace Pagination

/-- An entry of the page list: a page number or the text `'...'`. -/
inductive PageItem where
  | page : Int → PageItem
  | ellipsis : PageItem
deriving DecidableEq

/-- The numbers `lo, lo + 1, ...`, `count` of them. -/
def upFrom (lo : Int) : Nat → List Int
  | 0 => []
  | count + 1 => lo :: upFrom (lo + 1) count

/-- The numbers pushed by `for (let i = lo; i <= hi; i++) pages.push(i)`. -/
def forLoop (lo hi : Int) : List Int :=
  upFrom lo (hi - lo + 1).toNat

/-- The function `getPageNumbers()` for the props `currentPage` and `totalPages`. -/
def getPageNumbers (currentPage totalPages : Int) : List PageItem :=
  let showPages : Int := 7
  if totalPages ≤ showPages then
    (forLoop 1 totalPages).map .page
  else if currentPage ≤ 4 then
    (forLoop 1 5).map .page ++ [.ellipsis] ++ [.page totalPages]
  else if currentPage ≥ totalPages - 3 then
    [.page 1] ++ [.ellipsis] ++ (forLoop (totalPages - 4) totalPages).map .page
  else
    [.page 1, .ellipsis, .page (currentPage - 1), .page currentPage, .page (currentPage + 1),
     .ellipsis, .page totalPages]

/-- The numeric entries of a page list, in order. -/
def numbers : List PageItem → List Int
  | [] => []
  | .page n :: rest => n :: numbers rest
  | .ellipsis :: rest => numbers rest

/-- A page list in which an ellipsis stands only between two numbers that differ by at
least 2, and two numbers that follow each other directly differ by exactly 1. -/
def Spaced : List PageItem → Prop
  | [] => True
  | [.page _] => True
  | .page a :: .page b :: rest => b = a + 1 ∧ Spaced (.page b :: rest)
  | .page a :: .ellipsis :: .page b :: rest => a + 2 ≤ b ∧ Spaced (.page b :: rest)
  | _ => False

end Pagination

/-! ## `EmailVerification.js`: the OTP cells -/

namespace EmailVerification

open UmhwApi

/-- The initial state `otp`, also the value of every reset. -/
def initialOtp : List String := ["", "", "", "", "", ""]

/-- The test `/^\d$/.test(value)`: the value is one digit 0-9. -/
def isSingleDigit (value : String) : Bool :=
  match value.data with
  | [c] => Password.isDigit c
  | _ => false

/-- The test `/^\d{6}$/.test(text)`: the text is six digits 0-9. -/
def isSixDigits (text : String) : Bool :=
  text.data.length == 6 && text.data.all Password.isDigit

/-- The function `handleOtpChange(index, value)` on the state `otp`; `index` is the index
of a rendered cell. -/
def handleOtpChange (otp : List String) (index : Nat) (value : String) : List String :=
  if value ≠ "" ∧ !isSingleDigit value then otp
  else otp.set index value

/-- The function `handlePaste` on the state `otp`; `text` is the clipboard text and `trim`
stands for `String.prototype.trim`. -/
def handlePaste (trim : String → String) (otp : List String) (text : String) : List String :=
  let pastedData := trim text
  if isSixDigits pastedData then pastedData.data.map String.singleton
  else otp

/-- The state `handleVerify` and `handleResend` read and write, apart from the flags
`isVerifying`, `isResending` and the counter `attemptsRemaining`. -/
structure Page where
  otp : List String
  email : String
  message : String
deriving DecidableEq

/-- The text `res.data.message` of a response. -/
def responseMessage (r : Response) : String := r.body

/-- The message set in a `catch` block: the message of the server if it sent one, else
`fallback`. -/
def errorMessage (e : AxiosError) (fallback : String) : String :=
  match e.response with
  | some r =>
    match r.message with
    | some m => if m ≠ "" then "❌ " ++ m else fallback
    | none => fallback
  | none => fallback

/-- The function `handleVerify`. The call goes through `umhwApi` with `fuel`; `none`
means it ran out of fuel. -/
def handleVerify (env : Env) (fuel : Nat) (s : State) (page : Page) : Option (State × Page) :=
  let otpString := String.join page.otp
  if Password.jsLength otpString ≠ 6 then some (s, { page with message := "❌ Please enter all 6 digits" })
  else if page.email = "" then some (s, { page with message := "❌ Email address is required" })
  else
    match umhwApi env fuel s (mkConfig "post" "/auth/verify-email") with
    | (_, none) => none
    | (s1, some (.fulfilled res)) =>
      some (s1, { page with message := "✅ " ++ responseMessage res })
    | (s1, some (.rejected err)) =>
      some (s1, { page with message := errorMessage err "❌ Verification failed. Please try again.", otp := initialOtp })

/-- The function `handleResend`. The call goes through `umhwApi` with `fuel`; `none`
means it ran out of fuel. -/
def handleResend (env : Env) (fuel : Nat) (s : State) (page : Page) : Option (State × Page) :=
  if page.email = "" then
    some (s, { page with message := "❌ Please enter your email address" })
  else
    match umhwApi env fuel s (mkConfig "post" "/auth/resend-otp") with
    | (_, none) => none
    | (s1, some (.fulfilled res)) =>
      some (s1, { page with message := "✅ " ++ responseMessage res, otp := initialOtp })
    | (s1, some (.rejected err)) =>
      some (s1, { page with message := errorMessage err "❌ Failed to resend code. Please try again." })

/-- The OTP state has exactly 6 cells, each empty or a single digit 0-9. -/
def WellFormed (otp : List String) : Prop :=
  otp.length = 6 ∧ ∀ cell ∈ otp, cell = "" ∨ isSingleDigit cell = true

/-- A page with the code `123456` typed in. -/
def samplePage : Page :=
  { otp := ["1", "2", "3", "4", "5", "6"], email := "a@b.c", message := "" }

end EmailVerification

/-! ## `DoctorPatientSearch.js`: the create-record selector -/

namespace DoctorPatientSearch

open AccessRequests

/-- One of the doctor's requests as `/access-requests/my-requests` lists it: the fields the
create-record section reads. -/
structure MyRequest where
  id : String
  patientId : String
  status : String
  requestType : String
  expiresAt : Option Int
deriving DecidableEq

/-- Lines 381-391: the patient options of the selector, after the placeholder option; each
is the `key` and the `value` of an `<option>`. -/
def patientOptions (now : Int) (myRequests : List MyRequest) : List (String × String) :=
  (myRequests.filter fun req =>
    req.status == "approved" && dateGt req.expiresAt (some now) &&
      ["create", "both"].contains req.requestType).map fun req => (req.id, req.patientId)

/-- Lines 294 and 359-363: whether the create-record section is rendered in the list of
the doctor's requests. -/
def showsCreateSection (now : Int) (myRequests : List MyRequest) : Bool :=
  if myRequests.length = 0 then false
  else
    myRequests.any fun req =>
      req.status == "approved" && dateGt req.expiresAt (some now) &&
        ["create", "both"].contains req.requestType

/-- An approved request for creating records that expires at instant 20. -/
def sampleMyRequest : MyRequest :=
  { id := "r1", patientId := "p1", status := "approved", requestType := "create",
    expiresAt := some 20 }

end DoctorPatientSearch

/-! ## `PatientAccessRequests.js`: the requested duration and the pending count -/

namespace AccessRequests

/-- The comparison `a <= b` of two dates, `none` being an invalid date: every comparison
with an invalid date is false. -/
def dateLe (a b : Option Int) : Bool :=
  match a, b with
  | some x, some y => decide (x ≤ y)
  | _, _ => false

end AccessRequests

namespace PatientAccessRequests

open AccessRequests

/-- The function `Math.round`: the nearest integer, a half rounding up. -/
def mathRound (q : ℚ) : ℚ :=
  ((⌊q + 1 / 2⌋ : Int) : ℚ)

/-- The expression `Math.round((new Date(expiresAt) - new Date(createdAt)) /
(1000 * 60 * 60))`; it is `NaN` when one of the dates is invalid. The quotient is taken
exactly. -/
def derivedDurationHours (request : AccessRequest) : JsNumber :=
  match request.expiresAt, request.createdAt with
  | some e, some c => .finite (mathRound (((e - c : Int) : ℚ) / (1000 * 60 * 60)))
  | _, _ => .nan

/-- Lines 178-179: `request.requestedDuration || Math.round(...)`. -/
def requestedDurationHours (request : AccessRequest) : JsNumber :=
  match request.requestedDuration with
  | some v => if v.truthy then v else derivedDurationHours request
  | none => derivedDurationHours request

/-- Line 210: the duration text of the card, `getDurationLabel(requestedDurationHours)`. -/
def shownDuration (toStr : JsNumber → String) (request : AccessRequest) : String :=
  getDurationLabel toStr (requestedDurationHours request)

/-- Line 104: the count `pendingCount` shown on the Pending tab. -/
def pendingCount (now : Int) (requests : List AccessRequest) : Nat :=
  (requests.filter fun r => r.status == "pending" && dateLe (some now) r.expiresAt).length

/-- A request for 30 minutes that carries no `requestedDuration`: created at instant 0, it
expires 1 800 000 ms later. -/
def halfHourRequest : AccessRequest :=
  { id := "r2", status := "pending", expiresAt := some 1800000, createdAt := some 0,
    requestedDuration := none }

/-- A request for 48 hours that carries no `requestedDuration`. -/
def twoDayRequest : AccessRequest :=
  { id := "r3", status := "pending", expiresAt := some (1000 + 48 * 3600000),
    createdAt := some 1000, requestedDuration := none }

/-- A pending request whose `expiresAt` is not a valid date. -/
def undatedRequest : AccessRequest :=
  { id := "r4", status := "pending", expiresAt := none, createdAt := some 0,
    requestedDuration := none }

end PatientAccessRequests

/-! ## `App.js`: following redirects -/

namespace App

/-- The route a `Navigate` target leads to. The targets of the table are `/`, `/admin` and
`/dashboard`; a path that is none of the fixed paths falls to the route `*`. -/
def targetRoute (target : String) : Route :=
  if target = "/" then .root
  else if target = "/dashboard" then .dashboard
  else if target = "/admin" then .admin
  else if target = "/records" then .records
  else if target = "/2fa-settings" then .twoFactorSettings
  else if target = "/2fa-login" then .twoFactorLogin
  else if target = "/verify-email" then .verifyEmail
  else if target = "/share/view" then .shareView
  else .fallback

/-- The component reached from `route` by following at most `fuel` redirects, if any. -/
def follow (isLogged : Bool) (role : Option String) : Nat → Route → Option String
  | fuel, route =>
    match routeElement isLogged role route with
    | .component name => some name
    | .navigate target =>
      match fuel with
      | 0 => none
      | fuel + 1 => follow isLogged role fuel (targetRoute target)

/-- The routes visited from `route`, itself included, following at most `fuel`
redirects. -/
def visited (isLogged : Bool) (role : Option String) : Nat → Route → List Route
  | fuel, route =>
    route ::
      match routeElement isLogged role route with
      | .component _ => []
      | .navigate target =>
        match fuel with
        | 0 => []
        | fuel + 1 => visited isLogged role fuel (targetRoute target)

end App

/-! ## `AdminDashboard.js`: sample server -/

namespace AdminDashboard

open UmhwApi

/-- A server on which the role change succeeds and the profile lookup fails without a
response. -/
def profileFailsEnv : Env :=
  { csrf := fun _ => .ok (some "c1"),
    refresh := fun _ => .ok (some "t2"),
    server := fun _ c =>
      if c.url = "/profile/profile" then .error none
      else .ok { status := 200, user := some (some "7"), body := "" } }

end AdminDashboard

/-! # Theorems -/

namespace UmhwApi

/-! ## Request interceptor -/

theorem attachAccessToken_xCsrfToken (s : State) (config : Config) :
    (attachAccessToken s config).xCsrfToken = config.xCsrfToken := by
  unfold attachAccessToken
  split
  · split <;> rfl
  · rfl

theorem attachAccessToken_method (s : State) (config : Config) :
    (attachAccessToken s config).method = config.method := by
  unfold attachAccessToken
  split
  · split <;> rfl
  · rfl

theorem attachAccessToken_retry (s : State) (config : Config) :
    (attachAccessToken s config)._retry = config._retry := by
  unfold attachAccessToken
  split
  · split <;> rfl
  · rfl

theorem isStateChanging_attach (s : State) (config : Config) :
    isStateChanging (attachAccessToken s config) = isStateChanging config := by
  simp [isStateChanging, attachAccessToken_method]

theorem isStateChanging_iff (config : Config) :
    isStateChanging config = true ↔
      toLowerCase config.method ∈ ["post", "put", "delete", "patch"] := by
  simp [isStateChanging]

/-- C1: for a request whose lower-cased method is post, put, delete or patch the request
interceptor sets `x-csrf-token` to the current CSRF token, fetching one first (exactly one
fetch) when the slot is empty, and the request goes out with the fetched token; when that
fetch fails no request goes out. For every other method the header is left as it was, there
is no fetch and the state is unchanged. -/
theorem requestInterceptor_csrf_header (env : Env) (s : State) (config : Config) :
    (toLowerCase config.method ∈ ["post", "put", "delete", "patch"] →
      (truthy s.csrfToken = true →
        requestInterceptor env s config =
          (s, .fulfilled { attachAccessToken s config with xCsrfToken := s.csrfToken })) ∧
      (truthy s.csrfToken = false →
        (∀ tok, env.csrf s.log = .ok tok →
          requestInterceptor env s config =
            ({ s with csrfToken := tok, log := s.log ++ [Event.csrfFetch] },
              .fulfilled { attachAccessToken s config with xCsrfToken := tok })) ∧
        (∀ r, env.csrf s.log = .error r →
          requestInterceptor env s config =
            ({ s with log := s.log ++ [Event.csrfFetch] },
              .rejected { config := csrfRequestConfig, response := r }))) ∧
      (∀ s1 c, requestInterceptor env s config = (s1, .fulfilled c) →
        c.xCsrfToken = s1.csrfToken ∧
        csrfFetches s1.log = csrfFetches s.log + (if truthy s.csrfToken then 0 else 1))) ∧
    (toLowerCase config.method ∉ ["post", "put", "delete", "patch"] →
      requestInterceptor env s config = (s, .fulfilled (attachAccessToken s config)) ∧
      (attachAccessToken s config).xCsrfToken = config.xCsrfToken) := by
  have hsc := isStateChanging_iff config
  have hat := isStateChanging_attach s config
  constructor
  · intro hm
    have h1 : isStateChanging (attachAccessToken s config) = true := by
      rw [hat]; exact hsc.2 hm
    refine ⟨?_, ?_, ?_⟩
    · intro ht
      simp [requestInterceptor, h1, ht]
    · intro ht
      constructor
      · intro tok hok
        simp [requestInterceptor, h1, ht, fetchCsrfToken, hok]
      · intro r herr
        simp [requestInterceptor, h1, ht, fetchCsrfToken, herr]
    · intro s1 c hres
      cases ht : truthy s.csrfToken
      · cases hc : env.csrf s.log with
        | ok tok =>
          simp [requestInterceptor, h1, ht, fetchCsrfToken, hc] at hres
          obtain ⟨hs, hcfg⟩ := hres
          subst hs; subst hcfg
          simp [csrfFetches]
        | error r =>
          simp [requestInterceptor, h1, ht, fetchCsrfToken, hc] at hres
      · simp [requestInterceptor, h1, ht] at hres
        obtain ⟨hs, hcfg⟩ := hres
        subst hs; subst hcfg
        simp
  · intro hm
    have h1 : isStateChanging (attachAccessToken s config) = false := by
      rw [hat]
      cases h : isStateChanging config
      · rfl
      · exact absurd (hsc.1 h) hm
    exact ⟨by simp [requestInterceptor, h1], attachAccessToken_xCsrfToken s config⟩

theorem requestInterceptor_csrf_header_witness :
    requestInterceptor okEnv emptyState (mkConfig "POST" "/x") =
      ({ emptyState with csrfToken := some "c1", log := [Event.csrfFetch] },
        .fulfilled { mkConfig "POST" "/x" with xCsrfToken := some "c1" }) ∧
    requestInterceptor okEnv readyState (mkConfig "get" "/x") =
      (readyState, .fulfilled { mkConfig "get" "/x" with authorization := some "Bearer t1" }) :=
  ⟨(((requestInterceptor_csrf_header okEnv emptyState (mkConfig "POST" "/x")).1
      (by decide)).2.1 (by decide)).1 (some "c1") rfl,
    ((requestInterceptor_csrf_header okEnv readyState (mkConfig "get" "/x")).2
      (by decide)).1⟩

/-- Every config the request interceptor lets through is the incoming config with the
access token attached and at most the `x-csrf-token` header changed. -/
theorem requestInterceptor_fulfilled (env : Env) (s s1 : State) (config c : Config)
    (h : requestInterceptor env s config = (s1, .fulfilled c)) :
    c = { attachAccessToken s config with xCsrfToken := c.xCsrfToken } ∧
    s1.accessToken = s.accessToken ∧ s1.location = s.location ∧
    (s1.log = s.log ∨ s1.log = s.log ++ [Event.csrfFetch]) := by
  unfold requestInterceptor at h
  simp only at h
  split at h
  · split at h
    · cases hc : env.csrf s.log with
      | ok tok =>
        simp [fetchCsrfToken, hc] at h
        obtain ⟨hs, hcfg⟩ := h
        subst hs; subst hcfg
        simp
      | error r => simp [fetchCsrfToken, hc] at h
    · simp at h
      obtain ⟨hs, hcfg⟩ := h
      subst hs; subst hcfg
      simp
  · simp at h
    obtain ⟨hs, hcfg⟩ := h
    subst hs; subst hcfg
    simp

/-- C2: whenever the request interceptor lets a request through, its Authorization header
is `Bearer ` followed by the stored access token if a non-empty token is stored, and is the
header the request came with if no token (or an empty one) is stored; the stored token is
not changed. -/
theorem requestInterceptor_authorization (env : Env) (s s1 : State) (config c : Config)
    (h : requestInterceptor env s config = (s1, .fulfilled c)) :
    (∀ token, s.accessToken = some token → token ≠ "" →
      c.authorization = some ("Bearer " ++ token)) ∧
    (truthy s.accessToken = false → c.authorization = config.authorization) ∧
    s1.accessToken = s.accessToken := by
  obtain ⟨hc, hacc, -, -⟩ := requestInterceptor_fulfilled env s s1 config c h
  refine ⟨?_, ?_, hacc⟩
  · intro token hs hne
    rw [hc]
    simp [attachAccessToken, hs, hne]
  · intro ht
    rw [hc]
    cases hs : s.accessToken with
    | none => simp [attachAccessToken, hs]
    | some token =>
      have : token = "" := by simpa [truthy, hs] using ht
      simp [attachAccessToken, hs, this]

theorem requestInterceptor_authorization_witness :
    requestInterceptor okEnv readyState (mkConfig "get" "/x") =
      (readyState, .fulfilled { mkConfig "get" "/x" with authorization := some "Bearer t1" }) ∧
    ({ mkConfig "get" "/x" with authorization := some "Bearer t1" } : Config).authorization =
      some ("Bearer " ++ "t1") :=
  ⟨by decide,
    (requestInterceptor_authorization okEnv readyState readyState (mkConfig "get" "/x")
      { mkConfig "get" "/x" with authorization := some "Bearer t1" } (by decide)).1
      "t1" rfl (by decide)⟩

/-! ## Response interceptor -/

theorem isCsrfRejection_of_status_ne (error : AxiosError) (r : ErrResponse)
    (hresp : error.response = some r) (hne : r.status ≠ 403) :
    isCsrfRejection error = false := by
  simp [isCsrfRejection, hresp, hne]

theorem responseRejected_refresh_ok (env : Env) (s : State) (error : AxiosError)
    (r : ErrResponse) (tok : Option String) (hresp : error.response = some r)
    (h401 : r.status = 401) (hun : error.config._retry = false)
    (hok : env.refresh s.log = .ok tok) :
    responseRejected env s error =
      ({ s with accessToken := some (jsString tok), log := s.log ++ [Event.refresh] },
        .reissue { error.config with
          _retry := true, authorization := some ("Bearer " ++ jsString tok) }) := by
  have hc : isCsrfRejection error = false :=
    isCsrfRejection_of_status_ne error r hresp (by omega)
  have hu : isUnauthorized error = true := by simp [isUnauthorized, hresp, h401, hun]
  simp [responseRejected, hc, hu, beginRefresh, resumeRefresh, hok]

theorem responseRejected_refresh_error (env : Env) (s : State) (error : AxiosError)
    (r : ErrResponse) (resp : Option ErrResponse) (hresp : error.response = some r)
    (h401 : r.status = 401) (hun : error.config._retry = false)
    (hfail : env.refresh s.log = .error resp) :
    responseRejected env s error =
      ({ s with accessToken := none, location := "/", log := s.log ++ [Event.refresh] },
        .reject { config := refreshRequestConfig, response := resp }) := by
  have hc : isCsrfRejection error = false :=
    isCsrfRejection_of_status_ne error r hresp (by omega)
  have hu : isUnauthorized error = true := by simp [isUnauthorized, hresp, h401, hun]
  simp [responseRejected, hc, hu, beginRefresh, resumeRefresh, hfail]

theorem responseRejected_marked (env : Env) (s : State) (error : AxiosError)
    (r : ErrResponse) (hresp : error.response = some r) (h401 : r.status = 401)
    (hm : error.config._retry = true) :
    responseRejected env s error = (s, .reject error) := by
  have hc : isCsrfRejection error = false :=
    isCsrfRejection_of_status_ne error r hresp (by omega)
  have hu : isUnauthorized error = false := by simp [isUnauthorized, hresp, hm]
  simp [responseRejected, hc, hu]

theorem sends_append_send (log : List Event) (c : Config) :
    sends (log ++ [Event.send c]) = sends log + 1 := by
  simp [sends, Event.isSend]

theorem sends_append_refresh (log : List Event) :
    sends (log ++ [Event.refresh]) = sends log := by
  simp [sends, Event.isSend]

theorem sends_append_csrfFetch (log : List Event) :
    sends (log ++ [Event.csrfFetch]) = sends log := by
  simp [sends, Event.isSend]

theorem refreshes_append_send (log : List Event) (c : Config) :
    refreshes (log ++ [Event.send c]) = refreshes log := by
  simp [refreshes]

theorem refreshes_append_refresh (log : List Event) :
    refreshes (log ++ [Event.refresh]) = refreshes log + 1 := by
  simp [refreshes]

theorem refreshes_append_csrfFetch (log : List Event) :
    refreshes (log ++ [Event.csrfFetch]) = refreshes log := by
  simp [refreshes]

/-- The request interceptor sends nothing through `umhwApi` and never calls the refresh
endpoint. -/
theorem requestInterceptor_counts (env : Env) (s s1 : State) (config c : Config)
    (h : requestInterceptor env s config = (s1, .fulfilled c)) :
    sends s1.log = sends s.log ∧ refreshes s1.log = refreshes s.log := by
  obtain ⟨-, -, -, hlog⟩ := requestInterceptor_fulfilled env s s1 config c h
  rcases hlog with hlog | hlog
  · rw [hlog]; exact ⟨rfl, rfl⟩
  · rw [hlog]; exact ⟨sends_append_csrfFetch _, refreshes_append_csrfFetch _⟩

/-- The request interceptor keeps the retry marker of the config it is given. -/
theorem requestInterceptor_retry (env : Env) (s s1 : State) (config c : Config)
    (h : requestInterceptor env s config = (s1, .fulfilled c)) :
    c._retry = config._retry := by
  obtain ⟨hc, -, -, -⟩ := requestInterceptor_fulfilled env s s1 config c h
  rw [hc]
  exact attachAccessToken_retry s config

/-- C3: a call that goes out unmarked and is answered 401, while the refresh endpoint
answers with token `T`: the handler stores `T` as the access token, sets the marker on the
call and re-issues it with Authorization `Bearer T`; the re-issued request is sent with that
header and the marker; whether it then succeeds or is answered 401 again, the call settles
there, having been sent exactly twice with exactly one refresh call. A 401 on any call that
already carries the marker is handed to the caller with the state, and hence the history of
refresh calls, unchanged. -/
theorem unauthorized_refresh_single_retry (env : Env) (s0 s1 : State) (config c1 : Config)
    (r : ErrResponse) (T : String) (fuel : Nat)
    (hunmarked : config._retry = false)
    (hreq : requestInterceptor env s0 config = (s1, .fulfilled c1))
    (hsrv : env.server s1.log c1 = .error (some r))
    (h401 : r.status = 401)
    (href : env.refresh (s1.log ++ [Event.send c1]) = .ok (some T)) :
    let s2 : State :=
      { s1 with accessToken := some T, log := s1.log ++ [Event.send c1, Event.refresh] }
    let c2 : Config := { c1 with _retry := true, authorization := some ("Bearer " ++ T) }
    responseRejected env { s1 with log := s1.log ++ [Event.send c1] }
        { config := c1, response := some r } = (s2, .reissue c2) ∧
    umhwApi env (fuel + 1) s0 config = umhwApi env fuel s2 c2 ∧
    (∀ s3 c3, requestInterceptor env s2 c2 = (s3, .fulfilled c3) →
      c3.authorization = some ("Bearer " ++ T) ∧ c3._retry = true ∧
      s3.accessToken = some T ∧
      (∀ resp, env.server s3.log c3 = .ok resp →
        umhwApi env (fuel + 2) s0 config =
          ({ s3 with log := s3.log ++ [Event.send c3] }, some (.fulfilled resp))) ∧
      (∀ r3, env.server s3.log c3 = .error (some r3) → r3.status = 401 →
        umhwApi env (fuel + 2) s0 config =
          ({ s3 with log := s3.log ++ [Event.send c3] },
            some (.rejected { config := c3, response := some r3 }))) ∧
      sends (s3.log ++ [Event.send c3]) = sends s0.log + 2 ∧
      refreshes (s3.log ++ [Event.send c3]) = refreshes s0.log + 1) ∧
    (∀ (s : State) (error : AxiosError) (r4 : ErrResponse), error.response = some r4 →
      r4.status = 401 → error.config._retry = true →
      responseRejected env s error = (s, .reject error)) := by
  intro s2 c2
  have hc1 : c1._retry = false := by
    rw [requestInterceptor_retry env s0 s1 config c1 hreq]; exact hunmarked
  have hstep : responseRejected env { s1 with log := s1.log ++ [Event.send c1] }
      { config := c1, response := some r } = (s2, .reissue c2) := by
    rw [responseRejected_refresh_ok env _ _ r (some T) rfl h401 hc1 href]
    simp [s2, c2, jsString]
  have hfirst : ∀ n, umhwApi env (n + 1) s0 config = umhwApi env n s2 c2 := by
    intro n
    simp [umhwApi, sendRequest, hreq, dispatch, hsrv, hstep]
  refine ⟨hstep, hfirst fuel, ?_, ?_⟩
  · intro s3 c3 hreq2
    obtain ⟨hc3, hacc, -, -⟩ := requestInterceptor_fulfilled env s2 s3 c2 c3 hreq2
    have hretry : c3._retry = true := by
      rw [requestInterceptor_retry env s2 s3 c2 c3 hreq2]
    have hauth : c3.authorization = some ("Bearer " ++ T) := by
      rw [hc3]
      by_cases hT : T = ""
      · simp [attachAccessToken, s2, c2, hT]
      · simp [attachAccessToken, s2, c2, hT]
    obtain ⟨hs1, hr1⟩ := requestInterceptor_counts env s0 s1 config c1 hreq
    obtain ⟨hs3, hr3⟩ := requestInterceptor_counts env s2 s3 c2 c3 hreq2
    refine ⟨hauth, hretry, by rw [hacc], ?_, ?_, ?_, ?_⟩
    · intro resp hok
      rw [hfirst (fuel + 1)]
      simp [umhwApi, sendRequest, hreq2, dispatch, hok]
    · intro r3 herr h3
      rw [hfirst (fuel + 1)]
      have hm := responseRejected_marked env { s3 with log := s3.log ++ [Event.send c3] }
        { config := c3, response := some r3 } r3 rfl h3 hretry
      simp [umhwApi, sendRequest, hreq2, dispatch, herr, hm]
    · rw [sends_append_send, hs3]
      have : s2.log = (s1.log ++ [Event.send c1]) ++ [Event.refresh] := by simp [s2]
      rw [this, sends_append_refresh, sends_append_send, hs1]
    · rw [refreshes_append_send, hr3]
      have : s2.log = (s1.log ++ [Event.send c1]) ++ [Event.refresh] := by simp [s2]
      rw [this, refreshes_append_refresh, refreshes_append_send, hr1]
  · intro s error r4 hresp h4 hm
    exact responseRejected_marked env s error r4 hresp h4 hm

theorem unauthorized_refresh_single_retry_witness :
    umhwApi alwaysUnauthorizedEnv 2 readyState (mkConfig "get" "/x") =
      ({ accessToken := some "t2", csrfToken := some "c0", location := "/app",
         log := [Event.send { mkConfig "get" "/x" with authorization := some "Bearer t1" },
                 Event.refresh,
                 Event.send { mkConfig "get" "/x" with
                   authorization := some "Bearer t2", _retry := true }] },
        some (.rejected
          { config := { mkConfig "get" "/x" with
              authorization := some "Bearer t2", _retry := true },
            response := some unauthorized })) :=
  ((unauthorized_refresh_single_retry alwaysUnauthorizedEnv readyState readyState
      (mkConfig "get" "/x") { mkConfig "get" "/x" with authorization := some "Bearer t1" }
      unauthorized "t2" 0 rfl (by decide) rfl rfl rfl).2.2.1
    { accessToken := some "t2", csrfToken := some "c0", location := "/app",
      log := [Event.send { mkConfig "get" "/x" with authorization := some "Bearer t1" },
              Event.refresh] }
    { mkConfig "get" "/x" with authorization := some "Bearer t2", _retry := true }
    (by decide)).2.2.2.2.1 unauthorized rfl rfl

/-- C5: a call answered 401 on which the refresh call itself fails: the stored access token
is removed, the location becomes `/`, the call is not sent again, and the caller receives
the failure of the refresh call. -/
theorem refresh_failure_clears_session (env : Env) (s0 s1 : State) (config c1 : Config)
    (r : ErrResponse) (resp : Option ErrResponse) (fuel : Nat)
    (hunmarked : config._retry = false)
    (hreq : requestInterceptor env s0 config = (s1, .fulfilled c1))
    (hsrv : env.server s1.log c1 = .error (some r))
    (h401 : r.status = 401)
    (hfail : env.refresh (s1.log ++ [Event.send c1]) = .error resp) :
    responseRejected env { s1 with log := s1.log ++ [Event.send c1] }
        { config := c1, response := some r } =
      ({ s1 with accessToken := none, location := "/",
                 log := s1.log ++ [Event.send c1, Event.refresh] },
        .reject { config := refreshRequestConfig, response := resp }) ∧
    umhwApi env (fuel + 1) s0 config =
      ({ s1 with accessToken := none, location := "/",
                 log := s1.log ++ [Event.send c1, Event.refresh] },
        some (.rejected { config := refreshRequestConfig, response := resp })) ∧
    sends (s1.log ++ [Event.send c1, Event.refresh]) = sends s0.log + 1 := by
  have hc1 : c1._retry = false := by
    rw [requestInterceptor_retry env s0 s1 config c1 hreq]; exact hunmarked
  have hstep : responseRejected env { s1 with log := s1.log ++ [Event.send c1] }
      { config := c1, response := some r } =
      ({ s1 with accessToken := none, location := "/",
                 log := s1.log ++ [Event.send c1, Event.refresh] },
        .reject { config := refreshRequestConfig, response := resp }) := by
    rw [responseRejected_refresh_error env _ _ r resp rfl h401 hc1 hfail]
    simp
  refine ⟨hstep, ?_, ?_⟩
  · simp [umhwApi, sendRequest, hreq, dispatch, hsrv, hstep]
  · have : s1.log ++ [Event.send c1, Event.refresh] =
        (s1.log ++ [Event.send c1]) ++ [Event.refresh] := by simp
    rw [this, sends_append_refresh, sends_append_send,
      (requestInterceptor_counts env s0 s1 config c1 hreq).1]

theorem refresh_failure_clears_session_witness :
    umhwApi refreshFailsEnv 1 readyState (mkConfig "get" "/x") =
      ({ accessToken := none, csrfToken := some "c0", location := "/",
         log := [Event.send { mkConfig "get" "/x" with authorization := some "Bearer t1" },
                 Event.refresh] },
        some (.rejected
          { config := refreshRequestConfig,
            response := some { status := 403, message := none, error := none } })) :=
  (refresh_failure_clears_session refreshFailsEnv readyState readyState
    (mkConfig "get" "/x") { mkConfig "get" "/x" with authorization := some "Bearer t1" }
    unauthorized (some { status := 403, message := none, error := none }) 0
    rfl (by decide) rfl rfl rfl).2.1

/-- C8: an error that is neither a CSRF rejection (403 with `csrf` in the message or the
error text) nor a 401 on an unmarked call, an error without a response included: the
rejection handler rejects with that same error and leaves the whole state unchanged (both
tokens, the location and the history of network calls), and the call that failed this way
settles with that error without being sent again. -/
theorem other_errors_surfaced (env : Env) (s : State) (error : AxiosError)
    (hcsrf : ¬ ∃ r, error.response = some r ∧ r.status = 403 ∧
      (optIncludes r.message "csrf" = true ∨ optIncludes r.error "csrf" = true))
    (h401 : ¬ ∃ r, error.response = some r ∧ r.status = 401 ∧ error.config._retry = false) :
    responseRejected env s error = (s, .reject error) ∧
    (∀ (fuel : Nat) (s0 : State) (config : Config),
      sendRequest env s0 config = (s, .rejected error) →
      umhwApi env (fuel + 1) s0 config = (s, some (.rejected error))) := by
  have hc : isCsrfRejection error = false := by
    cases hr : error.response with
    | none => simp [isCsrfRejection, hr]
    | some r =>
      cases h : isCsrfRejection error
      · rfl
      · exfalso
        apply hcsrf
        simp [isCsrfRejection, hr] at h
        exact ⟨r, hr, h.1, h.2⟩
  have hu : isUnauthorized error = false := by
    cases hr : error.response with
    | none => simp [isUnauthorized, hr]
    | some r =>
      cases h : isUnauthorized error
      · rfl
      · exfalso
        apply h401
        simp [isUnauthorized, hr] at h
        exact ⟨r, hr, h.1, h.2⟩
  have hstep : responseRejected env s error = (s, .reject error) := by
    simp [responseRejected, hc, hu]
  refine ⟨hstep, ?_⟩
  intro fuel s0 config hsend
  simp [umhwApi, hsend, hstep]

theorem other_errors_surfaced_witness :
    umhwApi serverErrorEnv 1 readyState (mkConfig "get" "/x") =
      ({ readyState with
          log := [Event.send { mkConfig "get" "/x" with authorization := some "Bearer t1" }] },
        some (.rejected
          { config := { mkConfig "get" "/x" with authorization := some "Bearer t1" },
            response := some { status := 500, message := none, error := none } })) :=
  (other_errors_surfaced serverErrorEnv
    { readyState with
      log := [Event.send { mkConfig "get" "/x" with authorization := some "Bearer t1" }] }
    { config := { mkConfig "get" "/x" with authorization := some "Bearer t1" },
      response := some { status := 500, message := none, error := none } }
    (by simp) (by simp)).2 0 readyState (mkConfig "get" "/x") (by decide)

/-! ## The CSRF retry has no bound -/

theorem csrfRejectingEnv_requestInterceptor (s : State) (c : Config) :
    ∃ s1 c1, requestInterceptor csrfRejectingEnv s c = (s1, .fulfilled c1) ∧
      sends s1.log = sends s.log := by
  unfold requestInterceptor
  simp only
  split
  · split
    · exact ⟨_, _, rfl, sends_append_csrfFetch _⟩
    · exact ⟨_, _, rfl, rfl⟩
  · exact ⟨_, _, rfl, rfl⟩

theorem csrfRejectingEnv_step (n : Nat) (s : State) (c : Config) :
    ∃ s2 c2, umhwApi csrfRejectingEnv (n + 1) s c = umhwApi csrfRejectingEnv n s2 c2 ∧
      sends s2.log = sends s.log + 1 := by
  obtain ⟨s1, c1, hreq, hs1⟩ := csrfRejectingEnv_requestInterceptor s c
  have hinc : optIncludes (some "invalid csrf token") "csrf" = true := by decide
  have hrej : isCsrfRejection
      { config := c1,
        response := some { status := 403, message := some "invalid csrf token",
                           error := none } } = true := by
    simp [isCsrfRejection, hinc]
  refine ⟨{ s1 with csrfToken := some "c1",
                    log := (s1.log ++ [Event.send c1]) ++ [Event.csrfFetch] },
    { c1 with xCsrfToken := some "c1" }, ?_, ?_⟩
  · have hsrv : ∀ log cfg, csrfRejectingEnv.server log cfg =
        .error (some { status := 403, message := some "invalid csrf token", error := none }) :=
      fun _ _ => rfl
    have hcs : ∀ log, csrfRejectingEnv.csrf log = .ok (some "c1") := fun _ => rfl
    simp [umhwApi, sendRequest, hreq, dispatch, hsrv, responseRejected, hrej,
      fetchCsrfToken, hcs]
  · simp only
    rw [sends_append_csrfFetch, sends_append_send, hs1]

theorem csrfRejectingEnv_unsettled (n : Nat) :
    ∀ (s : State) (c : Config),
      (umhwApi csrfRejectingEnv n s c).2 = none ∧
      sends (umhwApi csrfRejectingEnv n s c).1.log = sends s.log + n := by
  induction n with
  | zero => intro s c; simp [umhwApi]
  | succ n ih =>
    intro s c
    obtain ⟨s2, c2, hstep, hs2⟩ := csrfRejectingEnv_step n s c
    rw [hstep]
    obtain ⟨h1, h2⟩ := ih s2 c2
    exact ⟨h1, by rw [h2, hs2]; omega⟩

/-- C4, at the failing input: a POST to a server that answers every attempt with 403
`invalid csrf token` while the token endpoint keeps handing out tokens. Whatever the fuel
`n`, the call has been sent `n` times and has still not settled: the CSRF retry is not
limited to one, and a second rejection is not surfaced to the caller. -/
theorem csrf_rejection_retried_without_bound (n : Nat) :
    (umhwApi csrfRejectingEnv n readyState (mkConfig "post" "/x")).2 = none ∧
    sends (umhwApi csrfRejectingEnv n readyState (mkConfig "post" "/x")).1.log = n := by
  obtain ⟨h1, h2⟩ := csrfRejectingEnv_unsettled n readyState (mkConfig "post" "/x")
  refine ⟨h1, ?_⟩
  rw [h2]
  simp [sends, readyState]

/-! ## Interleaved handlers -/

theorem isUnauthorized_iff (e : AxiosError) :
    isUnauthorized e = true ↔
      (∃ r, e.response = some r ∧ r.status = 401) ∧ e.config._retry = false := by
  cases hr : e.response with
  | none => simp [isUnauthorized, hr]
  | some r => simp [isUnauthorized, hr]

theorem isCsrfRejection_of_isUnauthorized (e : AxiosError) (h : isUnauthorized e = true) :
    isCsrfRejection e = false := by
  obtain ⟨⟨r, hr, h401⟩, -⟩ := (isUnauthorized_iff e).1 h
  exact isCsrfRejection_of_status_ne e r hr (by omega)

theorem lt_length_of_getElem? {α : Type} (l : List α) (i : Nat) (a : α)
    (h : l[i]? = some a) : i < l.length := by
  by_contra hlt
  rw [List.getElem?_eq_none (Nat.le_of_not_lt hlt)] at h
  exact Option.noConfusion h

theorem startHandler_unauthorized (i : Nat) (sys : Sys) (e : AxiosError)
    (hi : sys.tasks[i]? = some (.failed e)) (hu : isUnauthorized e = true) :
    startHandler i sys =
      { state := { sys.state with log := sys.state.log ++ [Event.refresh] },
        tasks := sys.tasks.set i (.awaitingRefresh { e.config with _retry := true }) } := by
  simp [startHandler, hi, isCsrfRejection_of_isUnauthorized e hu, hu, beginRefresh]

theorem deliver_refresh_ok (i : Nat) (sys : Sys) (c : Config) (T : String)
    (hi : sys.tasks[i]? = some (.awaitingRefresh c)) :
    deliver i (.ok (some T)) sys =
      { state := { sys.state with accessToken := some T },
        tasks := sys.tasks.set i
          (.reissued { c with authorization := some ("Bearer " ++ T) }) } := by
  simp [deliver, hi, resumeRefresh, jsString]

/-- Starting then finishing the handler of one call, with the answer the environment
gives, is the rejection handler of the response interceptor. -/
theorem handler_steps_agree (env : Env) (sys : Sys) (i : Nat) (e : AxiosError)
    (hi : sys.tasks[i]? = some (.failed e)) :
    deliver i (if isCsrfRejection e then env.csrf sys.state.log
        else env.refresh sys.state.log) (startHandler i sys) =
      { state := (responseRejected env sys.state e).1,
        tasks := sys.tasks.set i (responseRejected env sys.state e).2.toTask } := by
  have hlt := lt_length_of_getElem? sys.tasks i _ hi
  cases hc : isCsrfRejection e
  · cases hu : isUnauthorized e
    · simp [startHandler, hi, hc, hu, deliver, responseRejected, Handled.toTask, hlt]
    · cases ha : env.refresh sys.state.log <;>
        simp [startHandler, hi, hc, hu, deliver, responseRejected, Handled.toTask, hlt,
          beginRefresh, resumeRefresh, ha]
  · cases ha : env.csrf sys.state.log <;>
      simp [startHandler, hi, hc, deliver, responseRejected, Handled.toTask, hlt,
        fetchCsrfToken, ha]

theorem startAll_unauthorized (idxs : List Nat) :
    ∀ sys : Sys, idxs.Nodup →
      (∀ i ∈ idxs, ∃ e, sys.tasks[i]? = some (.failed e) ∧ isUnauthorized e = true) →
      refreshes (startAll idxs sys).state.log = refreshes sys.state.log + idxs.length ∧
      (∀ i ∈ idxs, ∀ e, sys.tasks[i]? = some (.failed e) →
        (startAll idxs sys).tasks[i]? =
          some (.awaitingRefresh { e.config with _retry := true })) ∧
      (∀ j, j ∉ idxs → (startAll idxs sys).tasks[j]? = sys.tasks[j]?) ∧
      (startAll idxs sys).state.accessToken = sys.state.accessToken := by
  induction idxs with
  | nil =>
    intro sys _ _
    simp [startAll]
  | cons i rest ih =>
    intro sys hnodup hfailed
    obtain ⟨hi_notin, hrest⟩ := List.nodup_cons.1 hnodup
    obtain ⟨e, hie, hue⟩ := hfailed i (List.mem_cons_self i rest)
    have hlt := lt_length_of_getElem? sys.tasks i _ hie
    have hstart := startHandler_unauthorized i sys e hie hue
    have hunfold : startAll (i :: rest) sys = startAll rest (startHandler i sys) := rfl
    have hother : ∀ k, k ≠ i → (startHandler i sys).tasks[k]? = sys.tasks[k]? := by
      intro k hk
      rw [hstart]
      exact List.getElem?_set_ne (Ne.symm hk)
    have hfailed1 : ∀ k ∈ rest, ∃ e1, (startHandler i sys).tasks[k]? = some (.failed e1) ∧
        isUnauthorized e1 = true := by
      intro k hk
      obtain ⟨e1, h1, h2⟩ := hfailed k (List.mem_cons_of_mem i hk)
      have hki : k ≠ i := fun h => hi_notin (h ▸ hk)
      exact ⟨e1, by rw [hother k hki]; exact h1, h2⟩
    obtain ⟨hcount, hawait, hframe, hacc⟩ := ih (startHandler i sys) hrest hfailed1
    rw [hunfold]
    refine ⟨?_, ?_, ?_, ?_⟩
    · rw [hcount, hstart]
      simp only [List.length_cons]
      rw [refreshes_append_refresh]
      omega
    · intro k hk e1 hk1
      rcases List.mem_cons.1 hk with hki | hk
      · subst hki
        rw [hframe k hi_notin, hstart]
        have he : e1 = e := by
          rw [hie] at hk1
          injection hk1 with h
          injection h with h
          exact h.symm
        subst he
        simp [hlt]
      · have hki : k ≠ i := fun h => hi_notin (h ▸ hk)
        exact hawait k hk e1 (by rw [hother k hki]; exact hk1)
    · intro j hj
      have hji : j ≠ i := fun h => hj (h ▸ List.mem_cons_self i rest)
      have hjr : j ∉ rest := fun h => hj (List.mem_cons_of_mem i h)
      rw [hframe j hjr, hother j hji]
    · rw [hacc, hstart]

/-- C6, counterexample: two calls are answered 401 and both handlers start before any
refresh call has settled. Two refresh calls go out, one per call, and each call awaits its
own; they are not collapsed into one. -/
theorem two_unauthorized_calls_two_refreshes :
    refreshes twoFailedCalls.state.log = 0 ∧
    refreshes (startAll [0, 1] twoFailedCalls).state.log = 2 ∧
    refreshes (startAll [0, 1] twoFailedCalls).state.log ≠ 1 ∧
    (startAll [0, 1] twoFailedCalls).tasks =
      [.awaitingRefresh { mkConfig "get" "/a" with
          authorization := some "Bearer t1", _retry := true },
       .awaitingRefresh { mkConfig "get" "/b" with
          authorization := some "Bearer t1", _retry := true }] := by
  decide

/-- C6, amended: when the handlers of N distinct calls, each answered 401 and none marked,
start before any refresh call has settled, exactly N refresh calls go out, one per call,
and every one of the N calls is left awaiting its own refresh with the marker set; when the
refresh awaited by a call answers with token `T`, `T` is stored and that call is re-issued
with Authorization `Bearer T`. -/
theorem each_unauthorized_call_refreshes (sys : Sys) (idxs : List Nat)
    (hnodup : idxs.Nodup)
    (hfailed : ∀ i ∈ idxs, ∃ e, sys.tasks[i]? = some (.failed e) ∧
      (∃ r, e.response = some r ∧ r.status = 401) ∧ e.config._retry = false) :
    refreshes (startAll idxs sys).state.log = refreshes sys.state.log + idxs.length ∧
    (∀ i ∈ idxs, ∀ e, sys.tasks[i]? = some (.failed e) →
      (startAll idxs sys).tasks[i]? =
        some (.awaitingRefresh { e.config with _retry := true })) ∧
    (∀ (sys1 : Sys) (i : Nat) (c : Config) (T : String),
      sys1.tasks[i]? = some (.awaitingRefresh c) →
      deliver i (.ok (some T)) sys1 =
        { state := { sys1.state with accessToken := some T },
          tasks := sys1.tasks.set i
            (.reissued { c with authorization := some ("Bearer " ++ T) }) }) := by
  have hfailed1 : ∀ i ∈ idxs, ∃ e, sys.tasks[i]? = some (.failed e) ∧
      isUnauthorized e = true := by
    intro i hi
    obtain ⟨e, h1, h2, h3⟩ := hfailed i hi
    exact ⟨e, h1, (isUnauthorized_iff e).2 ⟨h2, h3⟩⟩
  obtain ⟨hcount, hawait, -, -⟩ := startAll_unauthorized idxs sys hnodup hfailed1
  exact ⟨hcount, hawait, fun sys1 i c T h => deliver_refresh_ok i sys1 c T h⟩

theorem each_unauthorized_call_refreshes_witness :
    refreshes (startAll [1, 0] twoFailedCalls).state.log =
      refreshes twoFailedCalls.state.log + [1, 0].length :=
  (each_unauthorized_call_refreshes twoFailedCalls [1, 0] (by decide) (by
    intro i hi
    simp only [List.mem_cons, List.mem_singleton, List.not_mem_nil, or_false] at hi
    rcases hi with rfl | rfl
    · exact ⟨{ config := { mkConfig "get" "/b" with authorization := some "Bearer t1" },
               response := some unauthorized }, rfl, ⟨unauthorized, rfl, rfl⟩, rfl⟩
    · exact ⟨{ config := { mkConfig "get" "/a" with authorization := some "Bearer t1" },
               response := some unauthorized }, rfl, ⟨unauthorized, rfl, rfl⟩, rfl⟩)).1

/-- C7: the retry marker lives on the config of the failing call only. Handling the 401 of
call `a` (start, then the refresh settles with any answer) leaves the entry of every other
call as it was and, when the refresh answered with a token, leaves `a` re-issued with the
marker set. A different call `b` that was answered 401 and is unmarked then still gets its
own refresh call and its own re-issue with the marker set; and a 401 on a call that
carries the marker is surfaced at once, with no refresh call. -/
theorem retry_marker_is_per_call (sys : Sys) (a b : Nat) (ea eb : AxiosError)
    (answerA : Except (Option ErrResponse) (Option String)) (T : String)
    (hab : a ≠ b)
    (ha : sys.tasks[a]? = some (.failed ea))
    (hua : (∃ r, ea.response = some r ∧ r.status = 401) ∧ ea.config._retry = false)
    (hb : sys.tasks[b]? = some (.failed eb))
    (hub : (∃ r, eb.response = some r ∧ r.status = 401) ∧ eb.config._retry = false) :
    (∀ Ta, answerA = .ok (some Ta) →
      (deliver a answerA (startHandler a sys)).tasks[a]? =
        some (.reissued { ea.config with
          _retry := true, authorization := some ("Bearer " ++ Ta) })) ∧
    (∀ j, j ≠ a → (deliver a answerA (startHandler a sys)).tasks[j]? = sys.tasks[j]?) ∧
    refreshes (startHandler b (deliver a answerA (startHandler a sys))).state.log =
      refreshes (deliver a answerA (startHandler a sys)).state.log + 1 ∧
    (startHandler b (deliver a answerA (startHandler a sys))).tasks[b]? =
      some (.awaitingRefresh { eb.config with _retry := true }) ∧
    (deliver b (.ok (some T))
        (startHandler b (deliver a answerA (startHandler a sys)))).tasks[b]? =
      some (.reissued { eb.config with
        _retry := true, authorization := some ("Bearer " ++ T) }) ∧
    (∀ (sys1 : Sys) (e : AxiosError),
      sys1.tasks[b]? = some (.failed e) →
      (∃ r, e.response = some r ∧ r.status = 401) → e.config._retry = true →
      startHandler b sys1 = { sys1 with tasks := sys1.tasks.set b (.surfaced e) }) := by
  have hlta := lt_length_of_getElem? sys.tasks a _ ha
  have hltb := lt_length_of_getElem? sys.tasks b _ hb
  have hsa := startHandler_unauthorized a sys ea ha ((isUnauthorized_iff ea).2 hua)
  have hub1 := (isUnauthorized_iff eb).2 hub
  -- the entry of call `a` after its handler started
  have haw : (startHandler a sys).tasks[a]? =
      some (.awaitingRefresh { ea.config with _retry := true }) := by
    rw [hsa]; simp [hlta]
  -- every other entry survives the whole handling of `a`
  have hframe : ∀ j, j ≠ a →
      (deliver a answerA (startHandler a sys)).tasks[j]? = sys.tasks[j]? := by
    intro j hj
    have h1 : (startHandler a sys).tasks[j]? = sys.tasks[j]? := by
      rw [hsa]; exact List.getElem?_set_ne (Ne.symm hj)
    cases answerA with
    | ok tok =>
      simp only [deliver, haw, resumeRefresh]
      rw [List.getElem?_set_ne (Ne.symm hj)]
      exact h1
    | error r =>
      simp only [deliver, haw, resumeRefresh]
      rw [List.getElem?_set_ne (Ne.symm hj)]
      exact h1
  have hb1 : (deliver a answerA (startHandler a sys)).tasks[b]? = some (.failed eb) := by
    rw [hframe b (Ne.symm hab)]; exact hb
  have hltb1 := lt_length_of_getElem? _ b _ hb1
  have hsb := startHandler_unauthorized b _ eb hb1 hub1
  have hbw : (startHandler b (deliver a answerA (startHandler a sys))).tasks[b]? =
      some (.awaitingRefresh { eb.config with _retry := true }) := by
    rw [hsb]; simp [hltb1]
  refine ⟨?_, hframe, ?_, hbw, ?_, ?_⟩
  · intro Ta hTa
    subst hTa
    rw [deliver_refresh_ok a _ _ Ta haw]
    have : a < (startHandler a sys).tasks.length := lt_length_of_getElem? _ a _ haw
    simp [this]
  · rw [hsb]
    exact refreshes_append_refresh _
  · rw [deliver_refresh_ok b _ _ T hbw]
    have : b < (startHandler b (deliver a answerA (startHandler a sys))).tasks.length :=
      lt_length_of_getElem? _ b _ hbw
    simp [this]
  · intro sys1 e h1 h401 hm
    obtain ⟨r, hr, hs⟩ := h401
    have hc : isCsrfRejection e = false := isCsrfRejection_of_status_ne e r hr (by omega)
    have hu : isUnauthorized e = false := by simp [isUnauthorized, hr, hm]
    simp [startHandler, h1, hc, hu]

theorem retry_marker_is_per_call_witness :
    (deliver 1 (.ok (some "t3"))
        (startHandler 1 (deliver 0 (.ok (some "t2"))
          (startHandler 0 twoFailedCalls)))).tasks[1]? =
      some (.reissued { { mkConfig "get" "/b" with authorization := some "Bearer t1" } with
        _retry := true, authorization := some ("Bearer " ++ "t3") }) :=
  (retry_marker_is_per_call twoFailedCalls 0 1
    { config := { mkConfig "get" "/a" with authorization := some "Bearer t1" },
      response := some unauthorized }
    { config := { mkConfig "get" "/b" with authorization := some "Bearer t1" },
      response := some unauthorized }
    (.ok (some "t2")) "t3" (by decide) rfl (by decide) rfl (by decide)).2.2.2.2.1

end UmhwApi

/-! ## `updateRole` -/

namespace AdminDashboard

open UmhwApi

/-- When the role change, the profile lookup and the logout call all succeed and the
profile is that of the user whose role was changed to something other than `admin`,
`updateRole` ends with the access token removed and the location set to `/`. -/
theorem updateRole_self_demotion_logs_out (env : Env) (fuel : Nat) (s s1 s2 s3 : State)
    (page : Page) (id role : String) (r1 current r3 : Response)
    (hput : umhwApi env fuel s (mkConfig "put" ("/admin/users/" ++ id ++ "/role")) =
      (s1, some (.fulfilled r1)))
    (hget : umhwApi env fuel s1 (mkConfig "get" "/profile/profile") =
      (s2, some (.fulfilled current)))
    (hid : current.user = some (some id)) (hrole : role ≠ "admin")
    (hout : umhwApi env fuel s2 (mkConfig "post" "/auth/logout") =
      (s3, some (.fulfilled r3))) :
    ∃ page1, updateRole env fuel s page id role =
      some ({ s3 with accessToken := none, location := "/" }, page1) := by
  simp [updateRole, hput, hget, hid, hrole, hout]

/-- When the role change and the profile lookup succeed and the profile carries a `user`
without an `id`, the comparison with `id` fails: `updateRole` ends without error and
without logging out. -/
theorem updateRole_user_without_id (env : Env) (fuel : Nat) (s s1 s2 : State)
    (page : Page) (id role : String) (r1 current : Response)
    (hput : umhwApi env fuel s (mkConfig "put" ("/admin/users/" ++ id ++ "/role")) =
      (s1, some (.fulfilled r1)))
    (hget : umhwApi env fuel s1 (mkConfig "get" "/profile/profile") =
      (s2, some (.fulfilled current)))
    (huser : current.user = some none) :
    (updateRole env fuel s page id role).map (fun r => (r.1, r.2.error, r.2.alerts)) =
      some (s2, page.error, page.alerts) := by
  simp [updateRole, hput, hget, huser]

/-- C9, at the failing input: the acting admin `7` changes their own role to `patient`; the
role change and the profile lookup succeed, the logout call fails without a response.
`updateRole` finishes in its `catch` block: the role is changed in the table and the alert
announcing the logout was shown, yet the access token `t1` is still stored and the location
is unchanged. -/
theorem updateRole_logout_failure_keeps_token (fuel : Nat) :
    updateRole logoutFailsEnv (fuel + 1) readyState samplePage "7" "patient" =
      some
        ({ accessToken := some "t1", csrfToken := some "c0", location := "/app",
           log := [Event.send { mkConfig "put" "/admin/users/7/role" with
                     authorization := some "Bearer t1", xCsrfToken := some "c0" },
                   Event.send { mkConfig "get" "/profile/profile" with
                     authorization := some "Bearer t1" },
                   Event.send { mkConfig "post" "/auth/logout" with
                     authorization := some "Bearer t1", xCsrfToken := some "c0" }] },
         { users := [{ id := "7", role := "patient", updating := false },
                     { id := "8", role := "patient", updating := false }],
           error := "Failed to update role",
           successMessage := "✅ Role updated successfully",
           alerts := ["You changed your own role – you will be logged out."] }) := by
  rfl

end AdminDashboard

/-! ## `getStatusBadge` -/

namespace AccessRequests

/-- C10, counterexample: an approved request whose `expiresAt` (5) is earlier than now (10)
is shown as Approved, not Expired, in the patient view and in the doctor view. -/
theorem expired_approved_badge_is_approved :
    PatientAccessRequests.getStatusBadge 10 "approved" (some 5) =
      .span "status-badge status-approved" "✅ Approved" ∧
    PatientAccessRequests.getStatusBadge 10 "approved" (some 5) ≠
      .span "status-badge status-rejected" "⏱️ Expired" ∧
    DoctorPatientSearch.getStatusBadge 10 "approved" (some 5) =
      .span "status-badge status-approved" "✅ APPROVED" ∧
    DoctorPatientSearch.getStatusBadge 10 "approved" (some 5) ≠
      .span "status-badge status-rejected" "⏱️ EXPIRED" := by
  decide

/-- C10, amended: for every request whose `expiresAt` is earlier than now and whose stored
status is `pending`, `getStatusBadge` shows Expired in the patient view and in the doctor
view; a request whose stored status is `approved` is shown as Approved whatever its
`expiresAt`. -/
theorem expired_pending_badge (now e : Int) (status : String) (hexp : e < now)
    (hst : status = "pending") :
    PatientAccessRequests.getStatusBadge now status (some e) =
      .span "status-badge status-rejected" "⏱️ Expired" ∧
    DoctorPatientSearch.getStatusBadge now status (some e) =
      .span "status-badge status-rejected" "⏱️ EXPIRED" ∧
    (∀ (now1 : Int) (expiresAt : Option Int),
      PatientAccessRequests.getStatusBadge now1 "approved" expiresAt =
        .span "status-badge status-approved" "✅ Approved" ∧
      DoctorPatientSearch.getStatusBadge now1 "approved" expiresAt =
        .span "status-badge status-approved" "✅ APPROVED") := by
  subst hst
  refine ⟨?_, ?_, ?_⟩
  · simp [PatientAccessRequests.getStatusBadge, dateGt, hexp]
  · simp [DoctorPatientSearch.getStatusBadge, dateGt, hexp]
  · intro now1 expiresAt
    have h1 : ("approved" == "pending") = false := by decide
    constructor
    · simp [PatientAccessRequests.getStatusBadge, h1]
    · simp [DoctorPatientSearch.getStatusBadge, h1]

theorem expired_pending_badge_witness :
    PatientAccessRequests.getStatusBadge 10 "pending" (some 5) =
      .span "status-badge status-rejected" "⏱️ Expired" ∧
    DoctorPatientSearch.getStatusBadge 10 "pending" (some 5) =
      .span "status-badge status-rejected" "⏱️ EXPIRED" :=
  ⟨(expired_pending_badge 10 5 "pending" (by decide) rfl).1,
    (expired_pending_badge 10 5 "pending" (by decide) rfl).2.1⟩

end AccessRequests

/-! ## Durations -/

namespace Durations

theorem choose_mem (options : List JsNumber) (current : JsNumber) (i : Nat)
    (h : current ∈ options) : choose options current i ∈ options := by
  unfold choose
  cases hi : options[i]? with
  | none => exact h
  | some v => exact List.getElem?_mem hi

theorem foldl_choose_mem (options : List JsNumber) (choices : List Nat) :
    ∀ current, current ∈ options → choices.foldl (choose options) current ∈ options := by
  induction choices with
  | nil => intro current h; exact h
  | cons i rest ih =>
    intro current h
    exact ih _ (choose_mem options current i h)

theorem truthy_of_mem_presets (d : JsNumber) (h : d ∈ enumeratedPresets) :
    d.truthy = true := by
  simp only [enumeratedPresets, List.mem_cons, List.mem_singleton, List.not_mem_nil,
    or_false] at h
  rcases h with h | h | h | h | h | h | h | h <;> subst h <;>
    norm_num [JsNumber.truthy]

/-- C13: both copies of `getDurationLabel` return the canonical label on each of the
eight presets, return the number converted to a string followed by ` Hours` on every other
number (`NaN` included), and agree on every input. -/
theorem getDurationLabel_canonical (toStr : JsNumber → String) :
    (PatientAccessRequests.getDurationLabel toStr (.finite 0.5) = "30 Minutes" ∧
     PatientAccessRequests.getDurationLabel toStr (.finite 1) = "1 Hour" ∧
     PatientAccessRequests.getDurationLabel toStr (.finite 24) = "24 Hours (1 Day)" ∧
     PatientAccessRequests.getDurationLabel toStr (.finite 48) = "48 Hours (2 Days)" ∧
     PatientAccessRequests.getDurationLabel toStr (.finite 72) = "72 Hours (3 Days)" ∧
     PatientAccessRequests.getDurationLabel toStr (.finite 168) = "1 Week" ∧
     PatientAccessRequests.getDurationLabel toStr (.finite 336) = "2 Weeks" ∧
     PatientAccessRequests.getDurationLabel toStr (.finite 720) = "30 Days") ∧
    (∀ n, n ∉ enumeratedPresets →
      PatientAccessRequests.getDurationLabel toStr n = toStr n ++ " Hours") ∧
    (∀ n, DoctorPatientSearch.getDurationLabel toStr n =
      PatientAccessRequests.getDurationLabel toStr n) := by
  refine ⟨?_, ?_, ?_⟩
  · refine ⟨?_, ?_, ?_, ?_, ?_, ?_, ?_, ?_⟩ <;>
      norm_num [PatientAccessRequests.getDurationLabel]
  · intro n hn
    simp only [enumeratedPresets, List.mem_cons, List.mem_singleton, List.not_mem_nil,
      or_false, not_or] at hn
    obtain ⟨h1, h2, h3, h4, h5, h6, h7, h8⟩ := hn
    simp [PatientAccessRequests.getDurationLabel, h1, h2, h3, h4, h5, h6, h7, h8]
  · intro n
    rfl

theorem getDurationLabel_canonical_witness :
    PatientAccessRequests.getDurationLabel sampleToString (.finite 5) =
      sampleToString (.finite 5) ++ " Hours" :=
  (getDurationLabel_canonical sampleToString).2.1 (.finite 5)
    (by norm_num [enumeratedPresets])

end Durations

namespace PatientAccessRequests

open Durations

/-- C12: approving request `id` whose requested duration is `r`. If the patient chose a
duration `d` from the menu for that request, every request `handleRespond` sends carries
`customDurationHours = d`, whatever `r` is; if none was chosen it carries `r`. Choosing
option `i` of the menu and then approving sends the value of that option. When the patient
accepts the confirmation a request is sent. -/
theorem handleRespond_customDuration (toStr : JsNumber → String) (confirm : String → Bool)
    (customDurations : CustomDurations) (id : String) (r : JsNumber) :
    (∀ d, customDurations id = some d → d ∈ durationOptions →
      ∀ req, handleRespond toStr confirm customDurations id "approve" r = some req →
        req.customDurationHours = some d) ∧
    (customDurations id = none →
      ∀ req, handleRespond toStr confirm customDurations id "approve" r = some req →
        req.customDurationHours = some r) ∧
    (∀ i d, durationOptions[i]? = some d →
      ∀ req, handleRespond toStr confirm (selectDuration customDurations id i) id
          "approve" r = some req →
        req.customDurationHours = some d) ∧
    ((∀ msg, confirm msg = true) →
      (handleRespond toStr confirm customDurations id "approve" r).isSome = true) := by
  have hne : ("approve" = "deny") = False := by decide
  have hsel : ∀ (cd : CustomDurations) (d : JsNumber), cd id = some d →
      d ∈ durationOptions →
      ∀ req, handleRespond toStr confirm cd id "approve" r = some req →
        req.customDurationHours = some d := by
    intro cd d hd hmem req hreq
    have ht : d.truthy = true := truthy_of_mem_presets d hmem
    simp only [handleRespond, hne, if_false, hd, ht, if_true] at hreq
    split at hreq
    · exact Option.noConfusion hreq
    · injection hreq with hreq
      rw [← hreq]
  refine ⟨hsel customDurations, ?_, ?_, ?_⟩
  · intro hnone req hreq
    simp only [handleRespond, hne, if_false, hnone] at hreq
    split at hreq
    · exact Option.noConfusion hreq
    · injection hreq with hreq
      rw [← hreq]
  · intro i d hi req hreq
    have hstored : selectDuration customDurations id i id = some d := by
      simp [selectDuration, hi]
    exact hsel _ d hstored (List.getElem?_mem hi) req hreq
  · intro hc
    simp only [handleRespond, hne, if_false, hc]
    rfl

theorem handleRespond_customDuration_witness :
    handleRespond sampleToString alwaysConfirm (selectDuration noCustomDurations "r1" 2)
        "r1" "approve" (.finite 48) =
      some { url := "/access-requests/r1/respond", action := "approve",
             customDurationHours := some (.finite 24) } ∧
    ({ url := "/access-requests/r1/respond", action := "approve",
       customDurationHours := some (.finite 24) } : RespondRequest).customDurationHours =
      some (.finite 24) ∧
    (handleRespond sampleToString alwaysConfirm noCustomDurations "r1" "approve"
      (.finite 48)).isSome = true :=
  ⟨rfl,
    (handleRespond_customDuration sampleToString alwaysConfirm
      (selectDuration noCustomDurations "r1" 2) "r1" (.finite 48)).1 (.finite 24) rfl
      (by simp [durationOptions])
      { url := "/access-requests/r1/respond", action := "approve",
        customDurationHours := some (.finite 24) } rfl,
    (handleRespond_customDuration sampleToString alwaysConfirm noCustomDurations "r1"
      (.finite 48)).2.2.2 (fun _ => rfl)⟩

end PatientAccessRequests

namespace EmergencyQR

open Durations

/-- C14, counterexample: choosing the second option of the emergency-QR menu makes
`generateQR` submit `durationHours = 6`, which is not in the enumerated preset set. -/
theorem submits_six_hours :
    submittedDurationHours [1] = .finite 6 ∧ JsNumber.finite 6 ∉ enumeratedPresets := by
  constructor
  · rfl
  · norm_num [enumeratedPresets]

/-- C14, amended: every `durationHours` value the emergency-QR form can submit (its
initial value 24 and every option of its menu) belongs to 1, 6, 12, 24, 48, 72, 168; each
of these except 6 and 12 is in the enumerated preset set. -/
theorem submitted_duration_in_options (choices : List Nat) :
    submittedDurationHours choices ∈ durationOptions ∧
    initialDuration ∈ durationOptions ∧
    durationOptions =
      [.finite 1, .finite 6, .finite 12, .finite 24, .finite 48, .finite 72, .finite 168] ∧
    (∀ v, v ∈ durationOptions →
      v ∈ enumeratedPresets ∨ v = .finite 6 ∨ v = .finite 12) := by
  have hinit : initialDuration ∈ durationOptions := by
    simp [initialDuration, durationOptions]
  refine ⟨foldl_choose_mem durationOptions choices _ hinit, hinit, rfl, ?_⟩
  intro v hv
  simp only [durationOptions, List.mem_cons, List.mem_singleton, List.not_mem_nil,
    or_false] at hv
  rcases hv with h | h | h | h | h | h | h <;> subst h <;> simp [enumeratedPresets]

theorem submitted_duration_in_options_witness :
    JsNumber.finite 48 ∈ enumeratedPresets ∨ JsNumber.finite 48 = .finite 6 ∨
      JsNumber.finite 48 = .finite 12 :=
  (submitted_duration_in_options [4]).2.2.2 (.finite 48) (by simp [durationOptions])

end EmergencyQR

namespace DoctorPatientSearch

open Durations

/-- C15: whatever the doctor does with the request form, the `durationHours` it submits is
in the enumerated preset set, and every preset can be submitted; the options of the
patient's approval menu are the enumerated presets, choosing one stores a preset for that
request and every preset can be chosen; the initial value 48 of the request form is a
preset. -/
theorem duration_menus_are_presets :
    (∀ events, submittedDurationHours events ∈ enumeratedPresets) ∧
    (∀ v, v ∈ enumeratedPresets → ∃ events, submittedDurationHours events = v) ∧
    (∀ v, v ∈ PatientAccessRequests.durationOptions ↔ v ∈ enumeratedPresets) ∧
    (∀ (customDurations : PatientAccessRequests.CustomDurations) (id : String) (i : Nat)
        (v : JsNumber),
      PatientAccessRequests.selectDuration customDurations id i id = some v →
      customDurations id = some v ∨ v ∈ enumeratedPresets) ∧
    (∀ (customDurations : PatientAccessRequests.CustomDurations) (id : String)
        (v : JsNumber), v ∈ enumeratedPresets →
      ∃ i, PatientAccessRequests.selectDuration customDurations id i id = some v) ∧
    initialDuration = .finite 48 ∧ initialDuration ∈ enumeratedPresets := by
  have hinit : initialDuration ∈ enumeratedPresets := by
    simp [initialDuration, enumeratedPresets]
  have hstep : ∀ (events : List FormEvent) (d : JsNumber), d ∈ enumeratedPresets →
      events.foldl stepDuration d ∈ enumeratedPresets := by
    intro events
    induction events with
    | nil => intro d hd; exact hd
    | cons e rest ih =>
      intro d hd
      apply ih
      cases e with
      | select i => exact choose_mem durationOptions d i hd
      | submitAccepted => exact hinit
      | submitRejected => exact hd
  refine ⟨fun events => hstep events _ hinit, ?_, fun v => Iff.rfl, ?_, ?_, rfl, hinit⟩
  · intro v hv
    obtain ⟨i, hi⟩ := List.mem_iff_getElem?.1 hv
    refine ⟨[FormEvent.select i], ?_⟩
    have hi1 : durationOptions[i]? = some v := hi
    simp [submittedDurationHours, durationAfter, stepDuration, choose, hi1]
  · intro customDurations id i v h
    cases hi : PatientAccessRequests.durationOptions[i]? with
    | none =>
      left
      simpa [PatientAccessRequests.selectDuration, hi] using h
    | some w =>
      right
      have hw : w = v := by
        simpa [PatientAccessRequests.selectDuration, hi] using h
      rw [← hw]
      exact List.getElem?_mem hi
  · intro customDurations id v hv
    obtain ⟨i, hi⟩ := List.mem_iff_getElem?.1 hv
    have hi1 : PatientAccessRequests.durationOptions[i]? = some v := hi
    exact ⟨i, by simp [PatientAccessRequests.selectDuration, hi1]⟩

theorem duration_menus_are_presets_witness :
    ∃ events, submittedDurationHours events = .finite 720 :=
  duration_menus_are_presets.2.1 (.finite 720) (by simp [enumeratedPresets])

end DoctorPatientSearch

/-! ## The patient's request cards -/

namespace PatientAccessRequests

open AccessRequests

theorem mem_filteredRequests (now : Int) (filter : String) (requests : List AccessRequest)
    (request : AccessRequest) (h : request ∈ filteredRequests now filter requests) :
    request ∈ requests :=
  List.mem_of_mem_filter h

/-- The controls of one card of the rendered list, in terms of its request. -/
theorem card_controls (now : Int) (filter : String)
    (requests : List AccessRequest) (card : AccessRequest × List Control)
    (hcard : card ∈ renderedCards now filter requests) :
    card.1 ∈ requests ∧
    ((Control.approve ∈ card.2 ∧ Control.deny ∈ card.2) ↔
      (card.1.status = "pending" ∧ dateGt (some now) card.1.expiresAt = false)) ∧
    (¬ (card.1.status = "pending" ∧ dateGt (some now) card.1.expiresAt = false) →
      card.2 = []) ∧
    (card.1.status = "approved" → card.2 = []) ∧
    (card.1.status = "denied" → card.2 = []) ∧
    (∀ e, card.1.expiresAt = some e → e < now → card.2 = []) := by
  obtain ⟨request, hmem, hreq⟩ := List.mem_map.1 hcard
  subst hreq
  have hp : isPending now request = true ↔
      (request.status = "pending" ∧ dateGt (some now) request.expiresAt = false) := by
    simp [isPending, isExpired]
  have hnot : ¬ (request.status = "pending" ∧
      dateGt (some now) request.expiresAt = false) → cardControls now request = [] := by
    intro h
    have : isPending now request = false := by
      cases hb : isPending now request
      · rfl
      · exact absurd (hp.1 hb) h
    simp [cardControls, this]
  refine ⟨mem_filteredRequests now filter requests request hmem, ?_, hnot, ?_, ?_, ?_⟩
  · constructor
    · intro h
      by_contra hn
      have := hnot hn
      simp only at this
      rw [this] at h
      exact List.not_mem_nil _ h.1
    · intro h
      have : isPending now request = true := hp.2 h
      simp [cardControls, this]
  · intro hs
    apply hnot
    intro h
    simp only at hs
    rw [hs] at h
    exact absurd h.1 (by decide)
  · intro hs
    apply hnot
    intro h
    simp only at hs
    rw [hs] at h
    exact absurd h.1 (by decide)
  · intro e he hlt
    apply hnot
    intro h
    simp only at he
    rw [he] at h
    simp [dateGt, hlt] at h

theorem isPending_iff_not_after (now e : Int) (request : AccessRequest)
    (he : request.expiresAt = some e) :
    isPending now request = true ↔ (request.status = "pending" ∧ now ≤ e) := by
  simp only [isPending, isExpired, he, dateGt, Bool.and_eq_true, beq_iff_eq,
    Bool.not_eq_true', decide_eq_false_iff_not, not_lt]

theorem pending_request_has_card (now : Int) (filter : String)
    (requests : List AccessRequest) (request : AccessRequest) (hmem : request ∈ requests)
    (hs : request.status = "pending") (hd : dateGt (some now) request.expiresAt = false)
    (hf : filter = "all" ∨ filter = "pending") :
    (request, [Control.durationMenu, Control.approve, Control.deny]) ∈
      renderedCards now filter requests := by
  have hp : isPending now request = true := by simp [isPending, isExpired, hs, hd]
  have hlisted : request ∈ filteredRequests now filter requests := by
    apply List.mem_filter.2
    refine ⟨hmem, ?_⟩
    rcases hf with hf | hf
    · simp [hf]
    · have hne : (("pending" : String) == "all") = false := by decide
      simp [hf, hne, hs, hd]
  apply List.mem_map.2
  exact ⟨request, hlisted, by simp [cardControls, hp]⟩

/-- C11: the patient's list has one card per listed request, in order, and under the tab
`all` one per request. A request whose stored status is `pending` and for which now is not
after `expiresAt` (now = `expiresAt` included) is listed under the tabs `all` and `pending`
and its card offers the duration menu, approve and deny. Conversely a card offers approve
and deny exactly when the stored status of its request is `pending` and now is not after
`expiresAt`; otherwise it carries no control at all: a request that is approved or denied,
or whose `expiresAt` is earlier than now, offers none. -/
theorem controls_iff_effectively_pending (now : Int) (filter : String)
    (requests : List AccessRequest) :
    (renderedCards now filter requests).map Prod.fst = filteredRequests now filter requests ∧
    (renderedCards now "all" requests).map Prod.fst = requests ∧
    (∀ request ∈ requests, ∀ e, request.status = "pending" → request.expiresAt = some e →
      now ≤ e → (filter = "all" ∨ filter = "pending") →
      (request, [Control.durationMenu, Control.approve, Control.deny]) ∈
        renderedCards now filter requests) ∧
    (∀ request ∈ requests, request.status = "pending" →
      dateGt (some now) request.expiresAt = false → (filter = "all" ∨ filter = "pending") →
      (request, [Control.durationMenu, Control.approve, Control.deny]) ∈
        renderedCards now filter requests) ∧
    (∀ request ∈ filteredRequests now filter requests,
      (request, cardControls now request) ∈ renderedCards now filter requests) ∧
    (∀ card ∈ renderedCards now filter requests,
      card.1 ∈ requests ∧ card.2 = cardControls now card.1 ∧
      ((Control.approve ∈ card.2 ∧ Control.deny ∈ card.2) ↔
        (card.1.status = "pending" ∧ dateGt (some now) card.1.expiresAt = false)) ∧
      (∀ e, card.1.expiresAt = some e →
        ((Control.approve ∈ card.2 ∧ Control.deny ∈ card.2) ↔
          (card.1.status = "pending" ∧ now ≤ e))) ∧
      (¬ (card.1.status = "pending" ∧ dateGt (some now) card.1.expiresAt = false) →
        card.2 = []) ∧
      (card.1.status = "approved" → card.2 = []) ∧
      (card.1.status = "denied" → card.2 = []) ∧
      (∀ e, card.1.expiresAt = some e → e < now → card.2 = [])) := by
  refine ⟨?_, ?_, ?_, ?_, ?_, ?_⟩
  · simp [renderedCards, List.map_map, Function.comp_def]
  · simp [renderedCards, List.map_map, Function.comp_def, filteredRequests]
  · intro request hmem e hs he hle hf
    have hd : dateGt (some now) request.expiresAt = false := by
      have : ¬ e < now := by omega
      simp [he, dateGt, this]
    exact pending_request_has_card now filter requests request hmem hs hd hf
  · intro request hmem hs hd hf
    exact pending_request_has_card now filter requests request hmem hs hd hf
  · intro request hmem
    exact List.mem_map.2 ⟨request, hmem, rfl⟩
  · intro card hcard
    obtain ⟨h1, h2, h3, h4, h5, h6⟩ := card_controls now filter requests card hcard
    have hc : card.2 = cardControls now card.1 := by
      obtain ⟨request, _, hreq⟩ := List.mem_map.1 hcard
      rw [← hreq]
    refine ⟨h1, hc, h2, ?_, h3, h4, h5, h6⟩
    intro e he
    rw [h2]
    have hlt : dateGt (some now) card.1.expiresAt = false ↔ now ≤ e := by
      simp [he, dateGt]
    rw [hlt]

theorem controls_iff_effectively_pending_witness :
    sampleRequest.expiresAt = some 20 ∧
    (sampleRequest, [Control.durationMenu, Control.approve, Control.deny]) ∈
      renderedCards 20 "pending" [sampleRequest] ∧
    (sampleRequest, [Control.durationMenu, Control.approve, Control.deny]) ∈
      renderedCards 10 "all" [sampleRequest] ∧
    ((sampleRequest, cardControls 21 sampleRequest) :
      AccessRequest × List Control).2 = [] :=
  ⟨rfl,
    (controls_iff_effectively_pending 20 "pending" [sampleRequest]).2.2.1 sampleRequest
      (List.mem_singleton_self _) 20 rfl rfl (le_refl _) (Or.inr rfl),
    (controls_iff_effectively_pending 10 "all" [sampleRequest]).2.2.2.1 sampleRequest
      (List.mem_singleton_self _) rfl rfl (Or.inl rfl),
    ((controls_iff_effectively_pending 21 "all" [sampleRequest]).2.2.2.2.2
      (sampleRequest, cardControls 21 sampleRequest) (by decide)).2.2.2.2.2.2.2 20 rfl
      (by decide)⟩

end PatientAccessRequests

/-! ## Share tokens -/

namespace TokenManagement

open AccessRequests

/-- C16: the card of a share token shows EXPIRED exactly when now is strictly after
`expiresAt`, and ACTIVE otherwise, also at now = `expiresAt`; no other field of the token
enters. The share URL is shown only when the token is not expired (and has a URL), and the
revoke button is enabled exactly when the token is not expired. -/
theorem token_expired_iff (now : Int) (token : ShareToken) :
    (∀ e, token.expiresAt = some e →
      ((tokenCard now token).statusText = "❌ EXPIRED" ↔ e < now) ∧
      ((tokenCard now token).statusText = "✅ ACTIVE" ↔ ¬ e < now)) ∧
    (token.expiresAt = some now → (tokenCard now token).statusText = "✅ ACTIVE") ∧
    (∀ other : ShareToken, other.expiresAt = token.expiresAt →
      (tokenCard now other).statusText = (tokenCard now token).statusText ∧
      (tokenCard now other).revokeDisabled = (tokenCard now token).revokeDisabled) ∧
    ((tokenCard now token).shareUrl ≠ none →
      (tokenCard now token).statusText = "✅ ACTIVE" ∧
      (tokenCard now token).shareUrl = token.shareUrl) ∧
    ((tokenCard now token).revokeDisabled = false ↔
      (tokenCard now token).statusText = "✅ ACTIVE") ∧
    ((tokenCard now token).revokeDisabled = true ↔
      (tokenCard now token).statusText = "❌ EXPIRED") := by
  have hne : ("❌ EXPIRED" : String) ≠ "✅ ACTIVE" := by decide
  have hne1 : ("✅ ACTIVE" : String) ≠ "❌ EXPIRED" := by decide
  refine ⟨?_, ?_, ?_, ?_, ?_, ?_⟩
  · intro e he
    by_cases hlt : e < now
    · simp [tokenCard, he, dateGt, hlt, hne]
    · simp [tokenCard, he, dateGt, hlt, hne1]
  · intro he
    simp [tokenCard, he, dateGt]
  · intro other ho
    simp [tokenCard, ho]
  · intro h
    cases hx : dateGt (some now) token.expiresAt
    · cases hu : UmhwApi.truthy token.shareUrl
      · simp [tokenCard, hx, hu] at h
      · simp [tokenCard, hx, hu]
    · simp [tokenCard, hx] at h
  · cases hx : dateGt (some now) token.expiresAt <;> simp [tokenCard, hx, hne]
  · cases hx : dateGt (some now) token.expiresAt <;> simp [tokenCard, hx, hne1]

theorem token_expired_iff_witness :
    ((tokenCard 11 sampleToken).statusText = "❌ EXPIRED" ↔ (10 : Int) < 11) ∧
    (tokenCard 10 sampleToken).statusText = "✅ ACTIVE" :=
  ⟨((token_expired_iff 11 sampleToken).1 10 rfl).1,
    (token_expired_iff 10 sampleToken).2.1 rfl⟩

end TokenManagement

/-! ## Revoking an emergency code -/

namespace EmergencyQR

open UmhwApi

/-- C17: the user confirms and the server accepts the DELETE of code `t`, twice in a row.
After the first revoke the active list is the old one without the entries of id `t`: none
of id `t` remains and the others are all there in their original order; the displayed code
is cleared if its id is `t` and is left as it was otherwise; the error text is untouched.
The second revoke leaves the active list, the displayed code and the error text as the
first one left them. -/
theorem revoke_accepted_twice (env : Env) (fuel : Nat) (confirm : String → Bool)
    (s s1 s2 : State) (page : Page) (t : String) (r1 r2 : Response)
    (hconfirm : ∀ msg, confirm msg = true)
    (h1 : umhwApi env fuel s (mkConfig "delete" ("/qr/" ++ t)) = (s1, some (.fulfilled r1)))
    (h2 : umhwApi env fuel s1 (mkConfig "delete" ("/qr/" ++ t)) =
      (s2, some (.fulfilled r2))) :
    ∃ page1, revokeToken env fuel confirm s page t = some (s1, page1) ∧
      page1.activeTokens = page.activeTokens.filter (fun tok => tok.id != t) ∧
      (∀ tok ∈ page1.activeTokens, tok.id ≠ t) ∧
      (∀ tok ∈ page.activeTokens, tok.id ≠ t → tok ∈ page1.activeTokens) ∧
      page1.activeTokens.Sublist page.activeTokens ∧
      (∀ q, page.qrData = some q → q.id = some t → page1.qrData = none) ∧
      (∀ q, page.qrData = some q → q.id ≠ some t → page1.qrData = page.qrData) ∧
      (page.qrData = none → page1.qrData = none) ∧
      page1.error = page.error ∧
      revokeToken env fuel confirm s1 page1 t = some (s2, page1) := by
  have hfilter : ∀ l : List QrToken,
      (l.filter (fun tok => tok.id != t)).filter (fun tok => tok.id != t) =
        l.filter (fun tok => tok.id != t) := by
    intro l
    simp [List.filter_filter]
  have hmem : ∀ tok ∈ page.activeTokens.filter (fun tok => tok.id != t), tok.id ≠ t := by
    intro tok htok
    have := (List.mem_filter.1 htok).2
    simpa using this
  have hkeep : ∀ tok ∈ page.activeTokens, tok.id ≠ t →
      tok ∈ page.activeTokens.filter (fun tok => tok.id != t) := by
    intro tok htok hne
    exact List.mem_filter.2 ⟨htok, by simpa using hne⟩
  cases hq : page.qrData with
  | none =>
    refine ⟨{ page with activeTokens := page.activeTokens.filter (fun tok => tok.id != t) },
      ?_, rfl, hmem, hkeep, List.filter_sublist _, ?_, ?_, ?_, rfl, ?_⟩
    · simp [revokeToken, hconfirm, h1, hq]
    · intro q h; exact Option.noConfusion h
    · intro q h; exact Option.noConfusion h
    · intro _; exact hq
    · simp [revokeToken, hconfirm, h2, hq, hfilter]
  | some q =>
    by_cases hid : q.id = some t
    · refine ⟨{ page with
          activeTokens := page.activeTokens.filter (fun tok => tok.id != t),
          qrData := none },
        ?_, rfl, hmem, hkeep, List.filter_sublist _, ?_, ?_, ?_, rfl, ?_⟩
      · simp [revokeToken, hconfirm, h1, hq, hid]
      · intro _ _ _; rfl
      · intro q1 h1q hne
        injection h1q with h1q
        subst h1q
        exact absurd hid hne
      · intro h; exact Option.noConfusion h
      · simp [revokeToken, hconfirm, h2, hfilter]
    · refine ⟨{ page with
          activeTokens := page.activeTokens.filter (fun tok => tok.id != t) },
        ?_, rfl, hmem, hkeep, List.filter_sublist _, ?_, ?_, ?_, rfl, ?_⟩
      · simp [revokeToken, hconfirm, h1, hq, hid]
      · intro q1 h1q he
        injection h1q with h1q
        subst h1q
        exact absurd he hid
      · intro _ _ _; exact hq
      · intro h; exact Option.noConfusion h
      · simp [revokeToken, hconfirm, h2, hq, hid, hfilter]

theorem revoke_accepted_twice_witness :
    ∃ page1,
      revokeToken okEnv 1 Durations.alwaysConfirm readyState samplePage "q1" =
        some ((umhwApi okEnv 1 readyState (mkConfig "delete" ("/qr/" ++ "q1"))).1, page1) ∧
      page1.activeTokens = samplePage.activeTokens.filter (fun tok => tok.id != "q1") ∧
      (∀ tok ∈ page1.activeTokens, tok.id ≠ "q1") ∧
      (∀ tok ∈ samplePage.activeTokens, tok.id ≠ "q1" → tok ∈ page1.activeTokens) ∧
      page1.activeTokens.Sublist samplePage.activeTokens ∧
      (∀ q, samplePage.qrData = some q → q.id = some "q1" → page1.qrData = none) ∧
      (∀ q, samplePage.qrData = some q → q.id ≠ some "q1" →
        page1.qrData = samplePage.qrData) ∧
      (samplePage.qrData = none → page1.qrData = none) ∧
      page1.error = samplePage.error ∧
      revokeToken okEnv 1 Durations.alwaysConfirm
          (umhwApi okEnv 1 readyState (mkConfig "delete" ("/qr/" ++ "q1"))).1 page1 "q1" =
        some ((umhwApi okEnv 1
          (umhwApi okEnv 1 readyState (mkConfig "delete" ("/qr/" ++ "q1"))).1
          (mkConfig "delete" ("/qr/" ++ "q1"))).1, page1) :=
  revoke_accepted_twice okEnv 1 Durations.alwaysConfirm readyState _ _ samplePage "q1"
    { status := 200, user := none, body := "" }
    { status := 200, user := none, body := "" } (fun _ => rfl) rfl rfl

end EmergencyQR

/-! ## The route table -/

namespace App

/-- The function `decodeToken` returns on every token: a token that does not decode, and
an absent or empty one, yield no payload and hence the role `null`. -/
theorem roleOf_undecodable (parse : String → Parsed) (token : Option String)
    (h : ∀ tok, token = some tok → parse tok = .throws) :
    decodeToken parse token = none ∧ roleOf parse token = none := by
  have hd : decodeToken parse token = none := by
    cases token with
    | none => rfl
    | some tok =>
      by_cases he : tok = ""
      · simp [decodeToken, he]
      · simp [decodeToken, he, h tok rfl]
  exact ⟨hd, by simp [roleOf, hd]⟩

/-- The route `/admin` renders `AdminDashboard` exactly when the user is logged in and the
decoded role is `admin`. -/
theorem admin_route_iff (parse : String → Parsed) (token : Option String) :
    render parse token .admin = .component "AdminDashboard" ↔
      (isLogged token = true ∧ roleOf parse token = some "admin") := by
  cases hl : isLogged token <;> by_cases hr : roleOf parse token = some "admin" <;>
    simp [render, routeElement, hl, hr]

/-- The routes `/dashboard` and `/records` render their page exactly when the user is
logged in and the decoded role is not `admin`. -/
theorem dashboard_route_iff (parse : String → Parsed) (token : Option String) :
    (render parse token .dashboard = .component "Dashboard" ↔
      (isLogged token = true ∧ roleOf parse token ≠ some "admin")) ∧
    (render parse token .records = .component "MedicalRecordsPage" ↔
      (isLogged token = true ∧ roleOf parse token ≠ some "admin")) := by
  cases hl : isLogged token <;> by_cases hr : roleOf parse token = some "admin" <;>
    simp [render, routeElement, hl, hr]

/-- C18, at the failing input: the stored token is the text `undefined`, which does not
decode. The user counts as logged in, the role is `null`, and the route table renders
`Dashboard` at `/dashboard` and `MedicalRecordsPage` at `/records` although the decoded
role is neither patient nor doctor. -/
theorem undecodable_token_renders_dashboard :
    isLogged (some "undefined") = true ∧
    roleOf parseThrows (some "undefined") = none ∧
    render parseThrows (some "undefined") .dashboard = .component "Dashboard" ∧
    render parseThrows (some "undefined") .records = .component "MedicalRecordsPage" ∧
    render parseThrows (some "undefined") .admin = .navigate "/" := by
  decide

end App

/-! ## Password checks -/

namespace Password

theorem lookaheadAt_any (cls : Char → Bool) (l : List Char)
    (h : lookaheadAt cls l = true) : ∃ c ∈ l, cls c = true := by
  induction l with
  | nil => simp [lookaheadAt] at h
  | cons c cs ih =>
    simp only [lookaheadAt, Bool.or_eq_true, Bool.and_eq_true] at h
    rcases h with h | ⟨-, h⟩
    · exact ⟨c, List.mem_cons_self c cs, h⟩
    · obtain ⟨d, hd, hcls⟩ := ih h
      exact ⟨d, List.mem_cons_of_mem c hd, hcls⟩

/-- The test `/(?=.*[cls])/.test(s)` holds exactly when `s` contains a character of the
class. -/
theorem regexTest_iff (cls : Char → Bool) (l : List Char) :
    regexTest cls l = true ↔ ∃ c ∈ l, cls c = true := by
  induction l with
  | nil => simp [regexTest]
  | cons c cs ih =>
    simp only [regexTest, Bool.or_eq_true]
    constructor
    · rintro (h | h)
      · exact lookaheadAt_any cls (c :: cs) h
      · obtain ⟨d, hd, hcls⟩ := ih.1 h
        exact ⟨d, List.mem_cons_of_mem c hd, hcls⟩
    · rintro ⟨d, hd, hcls⟩
      rcases List.mem_cons.1 hd with hdc | hd
      · left
        subst hdc
        simp [lookaheadAt, hcls]
      · right
        exact ih.2 ⟨d, hd, hcls⟩

/-- For a password of the basic plane, `length` is the number of characters. -/
theorem jsLength_of_basic_plane (s : String) (h : ∀ c ∈ s.data, c.toNat < 65536) :
    jsLength s = s.length := by
  unfold jsLength
  have : ∀ l : List Char, (∀ c ∈ l, c.toNat < 65536) →
      (l.map fun c => if 65536 ≤ c.toNat then 2 else 1).sum = l.length := by
    intro l
    induction l with
    | nil => intro _; rfl
    | cons c cs ih =>
      intro hl
      have hc := hl c (List.mem_cons_self c cs)
      have hcs := ih (fun d hd => hl d (List.mem_cons_of_mem c hd))
      simp only [List.map_cons, List.sum_cons, List.length_cons, hcs]
      have : ¬ 65536 ≤ c.toNat := by omega
      simp only [this, if_false]
      omega
  exact this s.data h

theorem meetsCodeUnitPolicy_iff (password : String) :
    meetsCodeUnitPolicy password ↔
      (¬ jsLength password < 8 ∧ regexTest isLower password.data = true ∧
        regexTest isUpper password.data = true ∧ regexTest isDigit password.data = true) := by
  unfold meetsCodeUnitPolicy
  rw [regexTest_iff, regexTest_iff, regexTest_iff]
  constructor
  · rintro ⟨h1, h2, h3, h4⟩
    exact ⟨by omega, h2, h3, h4⟩
  · rintro ⟨h1, h2, h3, h4⟩
    exact ⟨by omega, h2, h3, h4⟩

theorem length_le_jsLength (s : String) : s.length ≤ jsLength s := by
  unfold jsLength
  have : ∀ l : List Char,
      l.length ≤ (l.map fun c => if 65536 ≤ c.toNat then 2 else 1).sum := by
    intro l
    induction l with
    | nil => exact Nat.le_refl _
    | cons c cs ih =>
      simp only [List.map_cons, List.sum_cons, List.length_cons]
      split <;> omega
  exact this s.data

theorem meetsCodeUnitPolicy_of_meetsPolicy (password : String) (h : meetsPolicy password) :
    meetsCodeUnitPolicy password :=
  ⟨Nat.le_trans h.1 (length_le_jsLength password), h.2⟩

theorem meetsCodeUnitPolicy_iff_meetsPolicy (password : String)
    (h : ∀ c ∈ password.data, c.toNat < 65536) :
    meetsCodeUnitPolicy password ↔ meetsPolicy password := by
  unfold meetsCodeUnitPolicy meetsPolicy
  rw [jsLength_of_basic_plane password h]

end Password

namespace AuthForm

open Password

theorem submit_register (toLower : String → String) (form : Form)
    (hf : form.formType = "register") (hu : 3 ≤ jsLength form.username)
    (ht : form.usernameStatus ≠ some "taken") :
    (∃ body, submit toLower form = .post "/auth/register" body) ↔
      meetsCodeUnitPolicy form.password := by
  have hne : form.username ≠ "" := by
    intro h
    rw [h] at hu
    simp [jsLength] at hu
  have hu1 : ¬ jsLength form.username < 3 := by omega
  rw [meetsCodeUnitPolicy_iff]
  by_cases h1 : jsLength form.password < 8
  · simp [submit, hf, hne, hu1, ht, h1]
  · by_cases h2 : regexTest isLower form.password.data = true
    · by_cases h3 : regexTest isUpper form.password.data = true
      · by_cases h4 : regexTest isDigit form.password.data = true
        · simp [submit, hf, hne, hu1, ht, h1, h2, h3, h4]
        · simp [submit, hf, hne, hu1, ht, h1, h2, h3, h4]
      · simp [submit, hf, hne, hu1, ht, h1, h2, h3]
    · simp [submit, hf, hne, hu1, ht, h1, h2]

theorem submit_reset (toLower : String → String) (form : Form)
    (hf : form.formType = "reset") :
    (∃ body, submit toLower form = .post "/auth/reset-password" body) ↔
      meetsCodeUnitPolicy form.password := by
  have h0 : ("reset" : String) ≠ "register" := by decide
  have h01 : ("reset" : String) ≠ "login" := by decide
  have h02 : ("reset" : String) ≠ "forgot" := by decide
  rw [meetsCodeUnitPolicy_iff]
  by_cases h1 : jsLength form.password < 8
  · simp [submit, hf, h0, h01, h02, h1]
  · by_cases h2 : regexTest isLower form.password.data = true
    · by_cases h3 : regexTest isUpper form.password.data = true
      · by_cases h4 : regexTest isDigit form.password.data = true
        · simp [submit, hf, h0, h01, h02, h1, h2, h3, h4]
        · simp [submit, hf, h0, h01, h02, h1, h2, h3, h4]
      · simp [submit, hf, h0, h01, h02, h1, h2, h3]
    · simp [submit, hf, h0, h01, h02, h1, h2]

theorem submit_post_password (toLower : String → String) (form : Form) (url : String)
    (body : PostBody) (h : submit toLower form = .post url body)
    (hurl : url = "/auth/register" ∨ url = "/auth/reset-password") :
    meetsCodeUnitPolicy form.password ∧ body.password = some form.password := by
  rw [meetsCodeUnitPolicy_iff]
  have e1 : ("/auth/login" : String) ≠ "/auth/register" := by decide
  have e2 : ("/auth/login" : String) ≠ "/auth/reset-password" := by decide
  have e3 : ("/auth/request-password-reset" : String) ≠ "/auth/register" := by decide
  have e4 : ("/auth/request-password-reset" : String) ≠ "/auth/reset-password" := by decide
  unfold submit at h
  split at h
  · split at h
    · exact Submitted.noConfusion h
    · split at h
      · exact Submitted.noConfusion h
      · split at h
        · exact Submitted.noConfusion h
        · split at h
          · exact Submitted.noConfusion h
          · split at h
            · exact Submitted.noConfusion h
            · split at h
              · exact Submitted.noConfusion h
              · injection h with _ hb
                subst hb
                simp_all
  · split at h
    · injection h with hu _
      subst hu
      rcases hurl with hurl | hurl
      · exact absurd hurl e1
      · exact absurd hurl e2
    · split at h
      · injection h with hu _
        subst hu
        rcases hurl with hurl | hurl
        · exact absurd hurl e3
        · exact absurd hurl e4
      · split at h
        · split at h
          · exact Submitted.noConfusion h
          · split at h
            · exact Submitted.noConfusion h
            · split at h
              · exact Submitted.noConfusion h
              · split at h
                · exact Submitted.noConfusion h
                · injection h with _ hb
                  subst hb
                  simp_all
        · exact Submitted.noConfusion h

end AuthForm

namespace ResetPassword

open Password AuthForm

theorem handleSubmit_post (token password confirmPassword url : String) (body : PostBody)
    (h : handleSubmit token password confirmPassword = .post url body) :
    meetsCodeUnitPolicy password ∧ url = "/auth/reset-password" ∧ body.password = some password ∧
      token ≠ "" ∧ password = confirmPassword := by
  rw [meetsCodeUnitPolicy_iff]
  unfold handleSubmit at h
  split at h
  · exact Submitted.noConfusion h
  · split at h
    · exact Submitted.noConfusion h
    · split at h
      · exact Submitted.noConfusion h
      · split at h
        · exact Submitted.noConfusion h
        · split at h
          · exact Submitted.noConfusion h
          · split at h
            · exact Submitted.noConfusion h
            · injection h with hu hb
              subst hu
              subst hb
              simp_all

theorem handleSubmit_iff (token password : String) (htoken : token ≠ "") :
    (∃ body, handleSubmit token password password = .post "/auth/reset-password" body) ↔
      meetsCodeUnitPolicy password := by
  rw [meetsCodeUnitPolicy_iff]
  by_cases h1 : jsLength password < 8
  · simp [handleSubmit, htoken, h1]
  · by_cases h2 : regexTest isLower password.data = true
    · by_cases h3 : regexTest isUpper password.data = true
      · by_cases h4 : regexTest isDigit password.data = true
        · simp [handleSubmit, htoken, h1, h2, h3, h4]
        · simp [handleSubmit, htoken, h1, h2, h3, h4]
      · simp [handleSubmit, htoken, h1, h2, h3]
    · simp [handleSubmit, htoken, h1, h2]

/-- C19, counterexample: the password `Aa1😀😀x` has six characters, so it does not meet
the rule of at least 8 characters, yet its `length` is 8 and the register branch, the reset
branch and the `ResetPassword` form all post it. -/
theorem six_character_password_posted :
    emojiRegister.password.length = 6 ∧ jsLength emojiRegister.password = 8 ∧
    ¬ meetsPolicy emojiRegister.password ∧
    submit UmhwApi.toLowerCase emojiRegister =
      .post "/auth/register"
        { email := some "a@b.c", password := some "Aa1😀😀x", role := some "patient",
          username := some "john", token := none } ∧
    submit UmhwApi.toLowerCase emojiReset =
      .post "/auth/reset-password"
        { email := none, password := some "Aa1😀😀x", role := none, username := none,
          token := some "tok" } ∧
    handleSubmit "tok" "Aa1😀😀x" "Aa1😀😀x" =
      .post "/auth/reset-password"
        { email := none, password := some "Aa1😀😀x", role := none, username := none,
          token := some "tok" } := by
  refine ⟨by decide, by decide, ?_, by decide, by decide, by decide⟩
  intro h
  have h8 : 8 ≤ emojiRegister.password.length := h.1
  have h6 : emojiRegister.password.length = 6 := by decide
  omega

/-- C19, amended: a password passes the client check exactly when its `length`, counted in
UTF-16 code units, is at least 8 and it contains a lowercase letter a-z, an uppercase
letter A-Z and a digit 0-9; for a password of the basic plane this is the rule of at least
8 characters. The register branch of `AuthForm` (the username being in order), its reset
branch, and the `ResetPassword` form (a token being present and the confirmation matching)
each send their request exactly for these passwords, and whenever a request goes to
`/auth/register` or `/auth/reset-password` its password is one of them. -/
theorem password_check_exact (toLower : String → String) (form : Form) :
    (form.formType = "register" → 3 ≤ jsLength form.username →
      form.usernameStatus ≠ some "taken" →
      ((∃ body, submit toLower form = .post "/auth/register" body) ↔
        meetsCodeUnitPolicy form.password)) ∧
    (form.formType = "reset" →
      ((∃ body, submit toLower form = .post "/auth/reset-password" body) ↔
        meetsCodeUnitPolicy form.password)) ∧
    (∀ token password, token ≠ "" →
      ((∃ body, handleSubmit token password password = .post "/auth/reset-password" body) ↔
        meetsCodeUnitPolicy password)) ∧
    (∀ url body, submit toLower form = .post url body →
      (url = "/auth/register" ∨ url = "/auth/reset-password") →
      meetsCodeUnitPolicy form.password ∧ body.password = some form.password) ∧
    (∀ token password confirmPassword url body,
      handleSubmit token password confirmPassword = .post url body →
      meetsCodeUnitPolicy password ∧ body.password = some password) ∧
    (∀ password : String, (∀ c ∈ password.data, c.toNat < 65536) →
      (meetsCodeUnitPolicy password ↔ meetsPolicy password)) ∧
    (∀ password : String, meetsPolicy password → meetsCodeUnitPolicy password) :=
  ⟨submit_register toLower form, submit_reset toLower form,
    fun token password htoken => handleSubmit_iff token password htoken,
    fun url body h hurl => submit_post_password toLower form url body h hurl,
    fun token password confirmPassword url body h =>
      ⟨(handleSubmit_post token password confirmPassword url body h).1,
        (handleSubmit_post token password confirmPassword url body h).2.2.1⟩,
    fun password hbmp => meetsCodeUnitPolicy_iff_meetsPolicy password hbmp,
    fun password h => meetsCodeUnitPolicy_of_meetsPolicy password h⟩

theorem password_check_exact_witness :
    meetsCodeUnitPolicy sampleRegister.password ∧
    meetsCodeUnitPolicy sampleReset.password ∧
    meetsCodeUnitPolicy "MyNewPass123" ∧ meetsPolicy "MyNewPass123" :=
  ⟨((password_check_exact UmhwApi.toLowerCase sampleRegister).1 rfl (by decide)
      (by decide)).1 ⟨_, rfl⟩,
    ((password_check_exact UmhwApi.toLowerCase sampleReset).2.1 rfl).1 ⟨_, rfl⟩,
    ((password_check_exact UmhwApi.toLowerCase sampleReset).2.2.1 "tok" "MyNewPass123"
      (by decide)).1 ⟨_, rfl⟩,
    ((password_check_exact UmhwApi.toLowerCase sampleReset).2.2.2.2.2.1 "MyNewPass123"
      (by decide)).1
      (((password_check_exact UmhwApi.toLowerCase sampleReset).2.2.1 "tok" "MyNewPass123"
        (by decide)).1 ⟨_, rfl⟩)⟩

end ResetPassword

/-! ## Attaching a file -/

namespace MedicalRecordForm

/-- C20: for every selected file, `handleFileChange` keeps it exactly when its type is one
of the four allowed types and its size is at most 10 * 1024 * 1024 bytes, and then clears
the error. A file of another type clears the attached file and the preview and sets the
type error, whatever its size; a file of an allowed type that is too large clears them and
sets the size error. -/
theorem handleFileChange_keeps_iff (s : FormState) (selected : File) :
    ((handleFileChange s (some selected)).state.file = some selected ↔
      (selected.type ∈ ["image/jpeg", "image/png", "image/webp", "application/pdf"] ∧
        selected.size ≤ 10 * 1024 * 1024)) ∧
    (selected.type ∈ ALLOWED_TYPES → selected.size ≤ MAX_SIZE →
      (handleFileChange s (some selected)).state.error = "" ∧
      (handleFileChange s (some selected)).inputCleared = false) ∧
    (selected.type ∉ ALLOWED_TYPES →
      handleFileChange s (some selected) =
        { state := { file := none, filePreview := none, error := "❌ Invalid file type. Allowed: JPEG, PNG, WEBP, PDF" },
          inputCleared := true, reading := none }) ∧
    (selected.type ∈ ALLOWED_TYPES → MAX_SIZE < selected.size →
      handleFileChange s (some selected) =
        { state := { file := none, filePreview := none, error := "❌ File too large. Maximum size is 10MB" },
          inputCleared := true, reading := none }) := by
  by_cases ht : selected.type ∈ ALLOWED_TYPES
  · by_cases hs : selected.size > MAX_SIZE
    · have hs1 : ¬ selected.size ≤ 10 * 1024 * 1024 := by
        simp only [MAX_SIZE] at hs; omega
      refine ⟨?_, ?_, fun h => absurd ht h, ?_⟩
      · simp [handleFileChange, ht, hs, hs1]
      · intro _ h
        exact absurd h (by omega)
      · intro _ _
        simp [handleFileChange, ht, hs]
    · have hs1 : selected.size ≤ 10 * 1024 * 1024 := by
        simp only [MAX_SIZE] at hs; omega
      have ht1 : selected.type ∈
          ["image/jpeg", "image/png", "image/webp", "application/pdf"] := ht
      refine ⟨?_, ?_, fun h => absurd ht h, fun _ h => absurd h hs⟩
      · by_cases hi : "image/".data.isPrefixOf selected.type.data = true
        · simp [handleFileChange, ht, hs, hi, ht1, hs1]
        · simp [handleFileChange, ht, hs, hi, ht1, hs1]
      · intro _ _
        by_cases hi : "image/".data.isPrefixOf selected.type.data = true
        · simp [handleFileChange, ht, hs, hi]
        · simp [handleFileChange, ht, hs, hi]
  · have ht1 : ¬ selected.type ∈
        ["image/jpeg", "image/png", "image/webp", "application/pdf"] := ht
    refine ⟨?_, fun h => absurd h ht, ?_, fun h => absurd h ht⟩
    · simp [handleFileChange, ht, ht1]
    · intro _
      simp [handleFileChange, ht]

theorem handleFileChange_keeps_iff_witness :
    (handleFileChange emptyForm (some samplePdf)).state.error = "" ∧
      (handleFileChange emptyForm (some samplePdf)).inputCleared = false :=
  (handleFileChange_keeps_iff emptyForm samplePdf).2.1 (by decide) (by decide)

end MedicalRecordForm

/-! ## Logging out -/

namespace Header

open UmhwApi

/-- C21: whenever the logout call settles, fulfilled or rejected, `handleLogout` completes
with the access token removed and the location `/`, and its promise is fulfilled: the
failure of the logout call is not passed on to the caller. -/
theorem handleLogout_removes_token (env : Env) (fuel : Nat) (s s1 : State)
    (outcome : Settled Response)
    (h : umhwApi env fuel s (mkConfig "post" "/auth/logout") = (s1, some outcome)) :
    handleLogout env fuel s =
      some ({ s1 with accessToken := none, location := "/" }, .fulfilled ()) ∧
    (∀ s2 result, handleLogout env fuel s = some (s2, result) →
      s2.accessToken = none ∧ result = .fulfilled ()) := by
  have hmain : handleLogout env fuel s =
      some ({ s1 with accessToken := none, location := "/" }, .fulfilled ()) := by
    cases outcome <;> simp [handleLogout, h]
  refine ⟨hmain, ?_⟩
  intro s2 result h2
  rw [hmain] at h2
  injection h2 with h2
  injection h2 with hs hr
  subst hs
  subst hr
  exact ⟨rfl, rfl⟩

theorem handleLogout_removes_token_witness :
    handleLogout serverErrorEnv 1 readyState =
      some ({ (umhwApi serverErrorEnv 1 readyState (mkConfig "post" "/auth/logout")).1 with
                accessToken := none, location := "/" }, .fulfilled ()) ∧
    handleLogout okEnv 1 readyState =
      some ({ (umhwApi okEnv 1 readyState (mkConfig "post" "/auth/logout")).1 with
                accessToken := none, location := "/" }, .fulfilled ()) :=
  ⟨(handleLogout_removes_token serverErrorEnv 1 readyState _
      (.rejected
        { config := { mkConfig "post" "/auth/logout" with
            authorization := some "Bearer t1", xCsrfToken := some "c0" },
          response := some { status := 500, message := none, error := none } }) rfl).1,
    (handleLogout_removes_token okEnv 1 readyState _
      (.fulfilled { status := 200, user := none, body := "" }) rfl).1⟩

end Header

/-! ## Page numbers -/

namespace Pagination

theorem mem_upFrom (n : Nat) : ∀ (lo x : Int), x ∈ upFrom lo n ↔ lo ≤ x ∧ x < lo + n := by
  induction n with
  | zero =>
    intro lo x
    simp only [upFrom, List.not_mem_nil, false_iff]
    omega
  | succ n ih =>
    intro lo x
    simp only [upFrom, List.mem_cons, ih]
    constructor
    · rintro (h | h)
      · subst h; omega
      · omega
    · intro h
      by_cases hx : x = lo
      · exact Or.inl hx
      · right; omega

theorem length_upFrom (n : Nat) : ∀ lo : Int, (upFrom lo n).length = n := by
  induction n with
  | zero => intro lo; rfl
  | succ n ih => intro lo; simp [upFrom, ih]

theorem pairwise_upFrom (n : Nat) : ∀ lo : Int, (upFrom lo n).Pairwise (· < ·) := by
  induction n with
  | zero => intro lo; exact List.Pairwise.nil
  | succ n ih =>
    intro lo
    simp only [upFrom, List.pairwise_cons]
    refine ⟨?_, ih (lo + 1)⟩
    intro x hx
    have := (mem_upFrom n (lo + 1) x).1 hx
    omega

theorem upFrom_eq_range (n : Nat) :
    ∀ lo : Int, upFrom lo n = (List.range n).map (fun (k : Nat) => lo + (k : Int)) := by
  induction n with
  | zero => intro lo; rfl
  | succ n ih =>
    intro lo
    rw [List.range_succ_eq_map, upFrom, ih (lo + 1)]
    simp only [List.map_cons, List.map_map, Nat.cast_zero, add_zero]
    congr 1
    apply List.map_congr_left
    intro k _
    simp only [Function.comp_apply]
    push_cast
    omega

theorem numbers_map_page (l : List Int) : numbers (l.map .page) = l := by
  induction l with
  | nil => rfl
  | cons a rest ih => simp [numbers, ih]

theorem spaced_upFrom (n : Nat) : ∀ lo : Int, Spaced ((upFrom lo n).map .page) := by
  induction n with
  | zero => intro lo; simp [upFrom, Spaced]
  | succ n ih =>
    intro lo
    cases n with
    | zero => simp [upFrom, Spaced]
    | succ m =>
      have h := ih (lo + 1)
      simp only [upFrom, List.map_cons] at h ⊢
      exact ⟨rfl, h⟩

theorem getPageNumbers_small (currentPage totalPages : Int) (h : totalPages ≤ 7) :
    getPageNumbers currentPage totalPages = (upFrom 1 totalPages.toNat).map .page := by
  have : (totalPages - 1 + 1).toNat = totalPages.toNat := by
    congr 1; omega
  simp [getPageNumbers, h, forLoop, this]

theorem getPageNumbers_nearStart (currentPage totalPages : Int) (h : 7 < totalPages)
    (hc : currentPage ≤ 4) :
    getPageNumbers currentPage totalPages =
      [.page 1, .page 2, .page 3, .page 4, .page 5, .ellipsis, .page totalPages] := by
  have h1 : ¬ totalPages ≤ 7 := by omega
  simp [getPageNumbers, h1, hc, forLoop, upFrom]

theorem getPageNumbers_nearEnd (currentPage totalPages : Int) (h : 7 < totalPages)
    (hc : 4 < currentPage) (he : totalPages - 3 ≤ currentPage) :
    getPageNumbers currentPage totalPages =
      [.page 1, .ellipsis, .page (totalPages - 4), .page (totalPages - 3),
       .page (totalPages - 2), .page (totalPages - 1), .page totalPages] := by
  have h1 : ¬ totalPages ≤ 7 := by omega
  have h2 : ¬ currentPage ≤ 4 := by omega
  have h5 : (totalPages - (totalPages - 4) + 1).toNat = 5 := by
    have : totalPages - (totalPages - 4) + 1 = 5 := by omega
    rw [this]; rfl
  have e1 : totalPages - 4 + 1 = totalPages - 3 := by omega
  have e2 : totalPages - 3 + 1 = totalPages - 2 := by omega
  have e3 : totalPages - 2 + 1 = totalPages - 1 := by omega
  have e4 : totalPages - 1 + 1 = totalPages := by omega
  simp [getPageNumbers, h1, h2, he, forLoop, h5, upFrom, e1, e2, e3, e4]

theorem getPageNumbers_middle (currentPage totalPages : Int) (h : 7 < totalPages)
    (hc : 4 < currentPage) (he : currentPage < totalPages - 3) :
    getPageNumbers currentPage totalPages =
      [.page 1, .ellipsis, .page (currentPage - 1), .page currentPage,
       .page (currentPage + 1), .ellipsis, .page totalPages] := by
  have h1 : ¬ totalPages ≤ 7 := by omega
  have h2 : ¬ currentPage ≤ 4 := by omega
  have h3 : ¬ totalPages - 3 ≤ currentPage := by omega
  simp [getPageNumbers, h1, h2, h3]

/-- C22: for `totalPages >= 2` and any `currentPage`, `getPageNumbers` returns the pages
1 to `totalPages` when `totalPages <= 7`; otherwise 1, 2, 3, 4, 5, `...`, `totalPages`
when `currentPage <= 4`; otherwise 1, `...`, `totalPages - 4` to `totalPages` when
`currentPage >= totalPages - 3`; otherwise 1, `...`, `currentPage - 1`, `currentPage`,
`currentPage + 1`, `...`, `totalPages`. The list never has more than 7 entries. -/
theorem getPageNumbers_shape (currentPage totalPages : Int) (htp : 2 ≤ totalPages) :
    (totalPages ≤ 7 →
      getPageNumbers currentPage totalPages =
        (List.range totalPages.toNat).map (fun (k : Nat) => .page (1 + (k : Int)))) ∧
    (7 < totalPages → currentPage ≤ 4 →
      getPageNumbers currentPage totalPages =
        [.page 1, .page 2, .page 3, .page 4, .page 5, .ellipsis, .page totalPages]) ∧
    (7 < totalPages → 4 < currentPage → totalPages - 3 ≤ currentPage →
      getPageNumbers currentPage totalPages =
        [.page 1, .ellipsis, .page (totalPages - 4), .page (totalPages - 3),
         .page (totalPages - 2), .page (totalPages - 1), .page totalPages]) ∧
    (7 < totalPages → 4 < currentPage → currentPage < totalPages - 3 →
      getPageNumbers currentPage totalPages =
        [.page 1, .ellipsis, .page (currentPage - 1), .page currentPage,
         .page (currentPage + 1), .ellipsis, .page totalPages]) ∧
    (getPageNumbers currentPage totalPages).length ≤ 7 := by
  refine ⟨?_, getPageNumbers_nearStart currentPage totalPages,
    getPageNumbers_nearEnd currentPage totalPages,
    getPageNumbers_middle currentPage totalPages, ?_⟩
  · intro h
    rw [getPageNumbers_small currentPage totalPages h, upFrom_eq_range, List.map_map]
    rfl
  · by_cases h : totalPages ≤ 7
    · rw [getPageNumbers_small currentPage totalPages h]
      simp only [List.length_map, length_upFrom]
      omega
    · have h7 : 7 < totalPages := by omega
      by_cases hc : currentPage ≤ 4
      · rw [getPageNumbers_nearStart currentPage totalPages h7 hc]; simp
      · by_cases he : totalPages - 3 ≤ currentPage
        · rw [getPageNumbers_nearEnd currentPage totalPages h7 (by omega) he]; simp
        · rw [getPageNumbers_middle currentPage totalPages h7 (by omega) (by omega)]; simp

theorem getPageNumbers_shape_witness :
    getPageNumbers 6 20 =
      [.page 1, .ellipsis, .page (6 - 1), .page 6, .page (6 + 1), .ellipsis, .page 20] ∧
    getPageNumbers 2 3 = (List.range (3 : Int).toNat).map (fun (k : Nat) => .page (1 + (k : Int))) :=
  ⟨(getPageNumbers_shape 6 20 (by decide)).2.2.2.1 (by decide) (by decide) (by decide),
    (getPageNumbers_shape 2 3 (by decide)).1 (by decide)⟩

/-- C28: for `totalPages >= 2` and `1 <= currentPage <= totalPages`, the numeric entries
of `getPageNumbers` are strictly increasing, all lie between 1 and `totalPages`, and
include 1, `totalPages` and `currentPage`. -/
theorem numbers_increasing_and_complete (currentPage totalPages : Int)
    (htp : 2 ≤ totalPages) (h1 : 1 ≤ currentPage) (h2 : currentPage ≤ totalPages) :
    (numbers (getPageNumbers currentPage totalPages)).Pairwise (· < ·) ∧
    (∀ n ∈ numbers (getPageNumbers currentPage totalPages), 1 ≤ n ∧ n ≤ totalPages) ∧
    1 ∈ numbers (getPageNumbers currentPage totalPages) ∧
    totalPages ∈ numbers (getPageNumbers currentPage totalPages) ∧
    currentPage ∈ numbers (getPageNumbers currentPage totalPages) := by
  by_cases h : totalPages ≤ 7
  · rw [getPageNumbers_small currentPage totalPages h, numbers_map_page]
    have hnat : ((totalPages.toNat : Nat) : Int) = totalPages := Int.toNat_of_nonneg (by omega)
    refine ⟨pairwise_upFrom _ 1, ?_, ?_, ?_, ?_⟩
    · intro n hn
      have := (mem_upFrom _ 1 n).1 hn
      omega
    · exact (mem_upFrom _ 1 1).2 (by omega)
    · exact (mem_upFrom _ 1 totalPages).2 (by omega)
    · exact (mem_upFrom _ 1 currentPage).2 (by omega)
  · have h7 : 7 < totalPages := by omega
    by_cases hc : currentPage ≤ 4
    · rw [getPageNumbers_nearStart currentPage totalPages h7 hc]
      simp only [numbers, List.pairwise_cons, List.mem_cons, List.mem_singleton,
        List.not_mem_nil, or_false, List.Pairwise.nil, and_true]
      refine ⟨?_, ?_, ?_, ?_, ?_⟩
      · refine ⟨?_, ?_, ?_, ?_, ?_, ?_⟩ <;> intro a ha <;> first | exact ha.elim | omega
      · intro n hn; omega
      · exact Or.inl trivial
      · simp
      · omega
    · by_cases he : totalPages - 3 ≤ currentPage
      · rw [getPageNumbers_nearEnd currentPage totalPages h7 (by omega) he]
        simp only [numbers, List.pairwise_cons, List.mem_cons, List.mem_singleton,
          List.not_mem_nil, or_false, List.Pairwise.nil, and_true]
        refine ⟨?_, ?_, ?_, ?_, ?_⟩
        · refine ⟨?_, ?_, ?_, ?_, ?_, ?_⟩ <;> intro a ha <;> first | exact ha.elim | omega
        · intro n hn; omega
        · exact Or.inl trivial
        · simp
        · omega
      · rw [getPageNumbers_middle currentPage totalPages h7 (by omega) (by omega)]
        simp only [numbers, List.pairwise_cons, List.mem_cons, List.mem_singleton,
          List.not_mem_nil, or_false, List.Pairwise.nil, and_true]
        refine ⟨?_, ?_, ?_, ?_, ?_⟩
        · refine ⟨?_, ?_, ?_, ?_, ?_⟩ <;> intro a ha <;> first | exact ha.elim | omega
        · intro n hn; omega
        · exact Or.inl trivial
        · simp
        · simp

theorem numbers_increasing_and_complete_witness :
    (6 : Int) ∈ numbers (getPageNumbers 6 20) ∧ (20 : Int) ∈ numbers (getPageNumbers 6 20) :=
  ⟨(numbers_increasing_and_complete 6 20 (by decide) (by decide) (by decide)).2.2.2.2,
    (numbers_increasing_and_complete 6 20 (by decide) (by decide) (by decide)).2.2.2.1⟩

theorem spaced_adjacent (l : List PageItem) :
    Spaced l → ∀ (i : Nat) (a b : Int),
      l[i]? = some (.page a) → l[i + 1]? = some (.page b) → b = a + 1 := by
  induction l using Spaced.induct with
  | case1 => intro _ i a b h; simp at h
  | case2 x => intro _ i a b _ h; simp at h
  | case3 x y rest ih =>
    intro hs i a b h1 h2
    obtain ⟨hxy, hrest⟩ := hs
    cases i with
    | zero =>
      simp at h1 h2
      omega
    | succ n =>
      exact ih hrest n a b (by simpa using h1) (by simpa using h2)
  | case4 x y rest ih =>
    intro hs i a b h1 h2
    obtain ⟨hxy, hrest⟩ := hs
    cases i with
    | zero => simp at h2
    | succ n =>
      cases n with
      | zero => simp at h1
      | succ m =>
        exact ih hrest m a b (by simpa using h1) (by simpa using h2)
  | case5 t h1 h2 h3 h4 =>
    intro hs
    unfold Spaced at hs
    split at hs
    · exact absurd rfl h1
    · exact absurd rfl (h2 _)
    · exact absurd rfl (h3 _ _ _)
    · exact absurd rfl (h4 _ _ _)
    · exact hs.elim

theorem spaced_ellipsis (l : List PageItem) :
    Spaced l → ∀ (i : Nat) (a b : Int),
      l[i]? = some (.page a) → l[i + 1]? = some .ellipsis →
      l[i + 2]? = some (.page b) → a + 2 ≤ b := by
  induction l using Spaced.induct with
  | case1 => intro _ i a b h; simp at h
  | case2 x => intro _ i a b _ h; simp at h
  | case3 x y rest ih =>
    intro hs i a b h1 h2 h3
    obtain ⟨hxy, hrest⟩ := hs
    cases i with
    | zero => simp at h2
    | succ n =>
      exact ih hrest n a b (by simpa using h1) (by simpa using h2) (by simpa using h3)
  | case4 x y rest ih =>
    intro hs i a b h1 h2 h3
    obtain ⟨hxy, hrest⟩ := hs
    cases i with
    | zero =>
      simp at h1 h3
      omega
    | succ n =>
      cases n with
      | zero => simp at h1
      | succ m =>
        exact ih hrest m a b (by simpa using h1) (by simpa using h2) (by simpa using h3)
  | case5 t h1 h2 h3 h4 =>
    intro hs
    unfold Spaced at hs
    split at hs
    · exact absurd rfl h1
    · exact absurd rfl (h2 _)
    · exact absurd rfl (h3 _ _ _)
    · exact absurd rfl (h4 _ _ _)
    · exact hs.elim

theorem spaced_ellipsis_between (l : List PageItem) :
    Spaced l → ∀ i : Nat, l[i]? = some .ellipsis →
      ∃ (j : Nat) (a b : Int), i = j + 1 ∧ l[j]? = some (.page a) ∧
        l[i + 1]? = some (.page b) := by
  induction l using Spaced.induct with
  | case1 => intro _ i h; simp at h
  | case2 x =>
    intro _ i h
    cases i with
    | zero => simp at h
    | succ n => simp at h
  | case3 x y rest ih =>
    intro hs i h
    obtain ⟨hxy, hrest⟩ := hs
    cases i with
    | zero => simp at h
    | succ n =>
      simp only [List.getElem?_cons_succ] at h
      obtain ⟨j, a, b, hj, h1, h2⟩ := ih hrest n h
      exact ⟨j + 1, a, b, by omega, by simpa using h1, by simpa using h2⟩
  | case4 x y rest ih =>
    intro hs i h
    obtain ⟨hxy, hrest⟩ := hs
    cases i with
    | zero => simp at h
    | succ n =>
      cases n with
      | zero => exact ⟨0, x, y, rfl, by simp, by simp⟩
      | succ m =>
        simp only [List.getElem?_cons_succ] at h
        obtain ⟨j, a, b, hj, h1, h2⟩ := ih hrest m h
        exact ⟨j + 2, a, b, by omega, by simpa using h1, by simpa using h2⟩
  | case5 t h1 h2 h3 h4 =>
    intro hs
    unfold Spaced at hs
    split at hs
    · exact absurd rfl h1
    · exact absurd rfl (h2 _)
    · exact absurd rfl (h3 _ _ _)
    · exact absurd rfl (h4 _ _ _)
    · exact hs.elim

theorem spaced_getPageNumbers (currentPage totalPages : Int) :
    Spaced (getPageNumbers currentPage totalPages) := by
  by_cases h : totalPages ≤ 7
  · rw [getPageNumbers_small currentPage totalPages h]
    exact spaced_upFrom _ 1
  · have h7 : 7 < totalPages := by omega
    by_cases hc : currentPage ≤ 4
    · rw [getPageNumbers_nearStart currentPage totalPages h7 hc]
      simp [Spaced]
      try omega
    · by_cases he : totalPages - 3 ≤ currentPage
      · rw [getPageNumbers_nearEnd currentPage totalPages h7 (by omega) he]
        simp [Spaced]
        try omega
      · rw [getPageNumbers_middle currentPage totalPages h7 (by omega) (by omega)]
        simp [Spaced]
        try omega

/-- C29: in the list `getPageNumbers` returns, for every `currentPage` and `totalPages`,
each `'...'` stands between two numbers and these differ by at least 2, and two numbers
that follow each other directly differ by exactly 1. -/
theorem ellipsis_only_where_pages_skipped (currentPage totalPages : Int) :
    (∀ (i : Nat) (a b : Int),
      (getPageNumbers currentPage totalPages)[i]? = some (.page a) →
      (getPageNumbers currentPage totalPages)[i + 1]? = some .ellipsis →
      (getPageNumbers currentPage totalPages)[i + 2]? = some (.page b) → a + 2 ≤ b) ∧
    (∀ (i : Nat) (a b : Int),
      (getPageNumbers currentPage totalPages)[i]? = some (.page a) →
      (getPageNumbers currentPage totalPages)[i + 1]? = some (.page b) → b = a + 1) ∧
    (∀ i : Nat, (getPageNumbers currentPage totalPages)[i]? = some .ellipsis →
      ∃ (j : Nat) (a b : Int), i = j + 1 ∧
        (getPageNumbers currentPage totalPages)[j]? = some (.page a) ∧
        (getPageNumbers currentPage totalPages)[i + 1]? = some (.page b)) ∧
    Spaced (getPageNumbers currentPage totalPages) :=
  ⟨spaced_ellipsis _ (spaced_getPageNumbers currentPage totalPages),
    spaced_adjacent _ (spaced_getPageNumbers currentPage totalPages),
    spaced_ellipsis_between _ (spaced_getPageNumbers currentPage totalPages),
    spaced_getPageNumbers currentPage totalPages⟩

theorem ellipsis_only_where_pages_skipped_witness : (1 : Int) + 2 ≤ 5 :=
  (ellipsis_only_where_pages_skipped 6 20).1 0 1 5 rfl rfl rfl

end Pagination

/-! ## The OTP cells -/

namespace EmailVerification

open UmhwApi

theorem wellFormed_initialOtp : WellFormed initialOtp :=
  ⟨rfl, by decide⟩

theorem wellFormed_set (otp : List String) (index : Nat) (value : String)
    (h : WellFormed otp) (hv : value = "" ∨ isSingleDigit value = true) :
    WellFormed (otp.set index value) := by
  refine ⟨by rw [List.length_set]; exact h.1, ?_⟩
  intro cell hcell
  rcases List.mem_or_eq_of_mem_set hcell with hc | hc
  · exact h.2 cell hc
  · rw [hc]; exact hv

theorem wellFormed_handleOtpChange (otp : List String) (index : Nat) (value : String)
    (h : WellFormed otp) : WellFormed (handleOtpChange otp index value) := by
  unfold handleOtpChange
  split
  · exact h
  · rename_i hg
    apply wellFormed_set otp index value h
    by_cases hv : value = ""
    · exact Or.inl hv
    · right
      cases hd : isSingleDigit value
      · exact absurd ⟨hv, by simp [hd]⟩ hg
      · rfl

theorem isSingleDigit_singleton (c : Char) (h : Password.isDigit c = true) :
    isSingleDigit (String.singleton c) = true := by
  have : (String.singleton c).data = [c] := rfl
  simp [isSingleDigit, this, h]

theorem wellFormed_handlePaste (trim : String → String) (otp : List String) (text : String)
    (h : WellFormed otp) : WellFormed (handlePaste trim otp text) := by
  unfold handlePaste
  simp only
  split
  · rename_i h6
    simp only [isSixDigits, Bool.and_eq_true, beq_iff_eq, List.all_eq_true] at h6
    refine ⟨by rw [List.length_map]; exact h6.1, ?_⟩
    intro cell hcell
    obtain ⟨c, hc, rfl⟩ := List.mem_map.1 hcell
    exact Or.inr (isSingleDigit_singleton c (h6.2 c hc))
  · exact h

theorem wellFormed_handleVerify (env : Env) (fuel : Nat) (s s1 : State) (page page1 : Page)
    (h : WellFormed page.otp) (hv : handleVerify env fuel s page = some (s1, page1)) :
    WellFormed page1.otp ∧ (page1.otp = page.otp ∨ page1.otp = initialOtp) := by
  unfold handleVerify at hv
  simp only at hv
  split at hv
  · injection hv with hv; injection hv with _ hp; subst hp; exact ⟨h, Or.inl rfl⟩
  · split at hv
    · injection hv with hv; injection hv with _ hp; subst hp; exact ⟨h, Or.inl rfl⟩
    · split at hv
      · exact Option.noConfusion hv
      · injection hv with hv; injection hv with _ hp; subst hp; exact ⟨h, Or.inl rfl⟩
      · injection hv with hv; injection hv with _ hp; subst hp
        exact ⟨wellFormed_initialOtp, Or.inr rfl⟩

theorem wellFormed_handleResend (env : Env) (fuel : Nat) (s s1 : State) (page page1 : Page)
    (h : WellFormed page.otp) (hv : handleResend env fuel s page = some (s1, page1)) :
    WellFormed page1.otp ∧ (page1.otp = page.otp ∨ page1.otp = initialOtp) := by
  unfold handleResend at hv
  split at hv
  · injection hv with hv; injection hv with _ hp; subst hp; exact ⟨h, Or.inl rfl⟩
  · split at hv
    · exact Option.noConfusion hv
    · injection hv with hv; injection hv with _ hp; subst hp
      exact ⟨wellFormed_initialOtp, Or.inr rfl⟩
    · injection hv with hv; injection hv with _ hp; subst hp; exact ⟨h, Or.inl rfl⟩

/-- C23, counterexample: the first cell holds `1` and `handleOtpChange(0, '')` is called.
The empty value is not a single digit, yet the state changes: the cell is emptied. -/
theorem empty_value_clears_cell :
    isSingleDigit "" = false ∧
    handleOtpChange ["1", "", "", "", "", ""] 0 "" = ["", "", "", "", "", ""] ∧
    handleOtpChange ["1", "", "", "", "", ""] 0 "" ≠ ["1", "", "", "", "", ""] := by
  decide

/-- C23, amended: the OTP state always has exactly 6 cells, each empty or a single digit
0-9. This holds initially and is preserved by `handleOtpChange` for every index 0..5 and
every value (a value that is neither empty nor a single digit leaves the state unchanged;
the empty value empties the cell), by `handlePaste` for every pasted text (a text that is
not exactly 6 digits after trimming leaves the state unchanged), and by `handleVerify` and
`handleResend`, which keep the cells or reset them to six empty ones. -/
theorem otp_well_formed :
    WellFormed initialOtp ∧
    (∀ (otp : List String) (index : Nat) (value : String), WellFormed otp → index < 6 →
      WellFormed (handleOtpChange otp index value)) ∧
    (∀ (otp : List String) (index : Nat) (value : String), value ≠ "" →
      isSingleDigit value = false → handleOtpChange otp index value = otp) ∧
    (∀ (otp : List String) (index : Nat), handleOtpChange otp index "" = otp.set index "") ∧
    (∀ (trim : String → String) (otp : List String) (text : String), WellFormed otp →
      WellFormed (handlePaste trim otp text)) ∧
    (∀ (trim : String → String) (otp : List String) (text : String),
      isSixDigits (trim text) = false → handlePaste trim otp text = otp) ∧
    (∀ (env : Env) (fuel : Nat) (s s1 : State) (page page1 : Page), WellFormed page.otp →
      handleVerify env fuel s page = some (s1, page1) →
      WellFormed page1.otp ∧ (page1.otp = page.otp ∨ page1.otp = initialOtp)) ∧
    (∀ (env : Env) (fuel : Nat) (s s1 : State) (page page1 : Page), WellFormed page.otp →
      handleResend env fuel s page = some (s1, page1) →
      WellFormed page1.otp ∧ (page1.otp = page.otp ∨ page1.otp = initialOtp)) := by
  refine ⟨wellFormed_initialOtp, ?_, ?_, ?_, ?_, ?_, ?_, ?_⟩
  · intro otp index value h _
    exact wellFormed_handleOtpChange otp index value h
  · intro otp index value hv hd
    simp [handleOtpChange, hv, hd]
  · intro otp index
    simp [handleOtpChange]
  · intro trim otp text h
    exact wellFormed_handlePaste trim otp text h
  · intro trim otp text h
    simp [handlePaste, h]
  · intro env fuel s s1 page page1 h hv
    exact wellFormed_handleVerify env fuel s s1 page page1 h hv
  · intro env fuel s s1 page page1 h hv
    exact wellFormed_handleResend env fuel s s1 page page1 h hv

theorem otp_well_formed_witness :
    WellFormed (handleOtpChange samplePage.otp 0 "7") ∧
    handleOtpChange samplePage.otp 0 "ab" = samplePage.otp ∧
    WellFormed (handlePaste (fun x => x) initialOtp "654321") :=
  ⟨otp_well_formed.2.1 samplePage.otp 0 "7" ⟨rfl, by decide⟩ (by decide),
    otp_well_formed.2.2.1 samplePage.otp 0 "ab" (by decide) (by decide),
    otp_well_formed.2.2.2.2.1 (fun x => x) initialOtp "654321" wellFormed_initialOtp⟩

end EmailVerification

/-! ## The create-record selector -/

namespace DoctorPatientSearch

open AccessRequests

/-- C24: every patient option of the create-record selector comes from a request of the
list whose status is `approved`, whose `expiresAt` is strictly after now and whose
`requestType` is `create` or `both`; a request that is view-only, pending, denied, expired
or without a valid `expiresAt` yields no option; and the create-record section is rendered
exactly when the selector has at least one patient option. -/
theorem create_selector_options (now : Int) (myRequests : List MyRequest) :
    (∀ opt ∈ patientOptions now myRequests,
      ∃ req ∈ myRequests, opt = (req.id, req.patientId) ∧ req.status = "approved" ∧
        (∃ e, req.expiresAt = some e ∧ now < e) ∧
        (req.requestType = "create" ∨ req.requestType = "both")) ∧
    (∀ req : MyRequest,
      (req.requestType = "view" ∨ req.status = "pending" ∨ req.status = "denied" ∨
        req.expiresAt = none ∨ (∃ e, req.expiresAt = some e ∧ e ≤ now)) →
      patientOptions now [req] = []) ∧
    (showsCreateSection now myRequests = true ↔ patientOptions now myRequests ≠ []) := by
  refine ⟨?_, ?_, ?_⟩
  · intro opt hopt
    obtain ⟨req, hreq, rfl⟩ := List.mem_map.1 hopt
    obtain ⟨hmem, hp⟩ := List.mem_filter.1 hreq
    simp only [Bool.and_eq_true, beq_iff_eq] at hp
    obtain ⟨⟨hs, hd⟩, ht⟩ := hp
    have ht1 : req.requestType = "create" ∨ req.requestType = "both" := by
      simpa using ht
    refine ⟨req, hmem, rfl, hs, ?_, ht1⟩
    cases he : req.expiresAt with
    | none => simp [he, dateGt] at hd
    | some e =>
      refine ⟨e, rfl, ?_⟩
      simpa [he, dateGt] using hd
  · intro req h
    have hv : ("view" : String) ≠ "create" ∧ ("view" : String) ≠ "both" := by decide
    have hpd : ("pending" : String) ≠ "approved" ∧ ("denied" : String) ≠ "approved" := by
      decide
    rcases h with h | h | h | h | ⟨e, h, hle⟩
    · simp [patientOptions, h, hv.1, hv.2]
    · simp [patientOptions, h, hpd.1]
    · simp [patientOptions, h, hpd.2]
    · simp [patientOptions, h, dateGt]
    · have : ¬ now < e := by omega
      simp [patientOptions, h, dateGt, this]
  · cases myRequests with
    | nil => simp [showsCreateSection, patientOptions]
    | cons r rest =>
      simp only [showsCreateSection, patientOptions, List.length_cons, Nat.succ_ne_zero,
        if_false, ne_eq, List.map_eq_nil_iff, List.filter_eq_nil_iff, List.any_eq_true,
        not_forall, Classical.not_imp, not_not]
      constructor
      · rintro ⟨x, hx, hp⟩
        exact ⟨x, hx, hp⟩
      · rintro ⟨x, hx, hp⟩
        exact ⟨x, hx, hp⟩

theorem create_selector_options_witness :
    patientOptions 30 [sampleMyRequest] = [] ∧
    (showsCreateSection 10 [sampleMyRequest] = true ↔
      patientOptions 10 [sampleMyRequest] ≠ []) :=
  ⟨(create_selector_options 30 [sampleMyRequest]).2.1 sampleMyRequest
      (Or.inr (Or.inr (Or.inr (Or.inr ⟨20, rfl, by decide⟩)))),
    (create_selector_options 10 [sampleMyRequest]).2.2⟩

end DoctorPatientSearch

/-! ## The requested duration and the pending count -/

namespace PatientAccessRequests

open AccessRequests Durations

theorem mathRound_int (n : Int) : mathRound (n : ℚ) = (n : ℚ) := by
  unfold mathRound
  have : ⌊(n : ℚ) + 1 / 2⌋ = n := by
    rw [Int.floor_eq_iff]
    constructor
    · linarith
    · linarith
  rw [this]

/-- A request without `requestedDuration` whose `expiresAt` is `createdAt` plus a whole
number `n` of hours is shown with the requested duration `n`. -/
theorem requestedDurationHours_whole_hours (request : AccessRequest) (c n : Int)
    (hr : request.requestedDuration = none) (hc : request.createdAt = some c)
    (he : request.expiresAt = some (c + n * 3600000)) :
    requestedDurationHours request = .finite (n : ℚ) := by
  have hq : (((c + n * 3600000 - c : Int) : ℚ)) / (1000 * 60 * 60) = (n : ℚ) := by
    have : c + n * 3600000 - c = n * 3600000 := by ring
    rw [this]
    push_cast
    rw [mul_div_assoc]
    norm_num
  simp only [requestedDurationHours, hr, derivedDurationHours, he, hc, hq, mathRound_int]

/-- C25, at the failing input: a request that carries no `requestedDuration`, created at
instant 0 and expiring 0.5 hours (1 800 000 ms) later. `Math.round(0.5)` is 1, so the card
shows the requested duration 1 with the label `1 Hour`, not the preset 0.5 with its label
`30 Minutes`. -/
theorem half_hour_request_shown_as_one_hour (toStr : JsNumber → String) :
    halfHourRequest.requestedDuration = none ∧
    halfHourRequest.createdAt = some 0 ∧
    halfHourRequest.expiresAt = some (0 + 1800000) ∧
    requestedDurationHours halfHourRequest = .finite 1 ∧
    requestedDurationHours halfHourRequest ≠ .finite 0.5 ∧
    shownDuration toStr halfHourRequest = "1 Hour" ∧
    getDurationLabel toStr (.finite 0.5) = "30 Minutes" := by
  have hround : mathRound (((1800000 - 0 : Int) : ℚ) / (1000 * 60 * 60)) = 1 := by
    unfold mathRound
    have : ⌊(((1800000 - 0 : Int) : ℚ)) / (1000 * 60 * 60) + 1 / 2⌋ = 1 := by
      rw [Int.floor_eq_iff]
      norm_num
    rw [this]
    norm_num
  have hd : requestedDurationHours halfHourRequest = .finite 1 := by
    simp only [requestedDurationHours, halfHourRequest, derivedDurationHours, hround]
  refine ⟨rfl, rfl, rfl, hd, ?_, ?_, ?_⟩
  · rw [hd]
    norm_num
  · rw [shownDuration, hd]
    norm_num [getDurationLabel]
  · norm_num [getDurationLabel]

/-- C27, at the failing input: one pending request whose `expiresAt` is not a valid date.
The list under the `pending` filter shows it, its card is treated as pending (`isPending`,
with the approve and deny controls) and its badge reads Pending, but the count on the
Pending tab, which tests `now <= expiresAt`, is 0. -/
theorem undated_request_listed_not_counted :
    pendingCount 5 [undatedRequest] = 0 ∧
    (filteredRequests 5 "pending" [undatedRequest]).length = 1 ∧
    filteredRequests 5 "pending" [undatedRequest] = [undatedRequest] ∧
    isPending 5 undatedRequest = true ∧
    cardControls 5 undatedRequest = [.durationMenu, .approve, .deny] ∧
    getStatusBadge 5 undatedRequest.status undatedRequest.expiresAt =
      .span "status-badge status-pending" "⏳ Pending" := by
  decide

/-- For every list of requests whose `expiresAt` are valid dates and every instant now, the
pending count of the Pending tab equals the number of requests listed under the `pending`
filter; and for the filter `all`, whatever the list, the listed requests are the whole
list in its original order. -/
theorem pendingCount_eq_listed (now : Int) (requests : List AccessRequest) :
    ((∀ r ∈ requests, r.expiresAt ≠ none) →
      pendingCount now requests = (filteredRequests now "pending" requests).length) ∧
    filteredRequests now "all" requests = requests := by
  constructor
  · intro hvalid
    have hne : (("pending" : String) == "all") = false := by decide
    unfold pendingCount filteredRequests
    congr 1
    apply List.filter_congr
    intro r hr
    cases he : r.expiresAt with
    | none => exact absurd he (hvalid r hr)
    | some e =>
      simp only [hne, dateLe, dateGt, beq_self_eq_true, if_true, Bool.false_eq_true,
        if_false]
      by_cases hle : now ≤ e
      · have : ¬ e < now := by omega
        simp [hle, this]
      · have : e < now := by omega
        simp [hle, this]
  · simp [filteredRequests]

theorem pendingCount_eq_listed_witness :
    pendingCount 10 [sampleRequest] = (filteredRequests 10 "pending" [sampleRequest]).length :=
  (pendingCount_eq_listed 10 [sampleRequest]).1 (by decide)

end PatientAccessRequests

/-! ## `updateRole` and the user list -/

namespace AdminDashboard

open UmhwApi

/-- When the role change itself is rejected, `updateRole` reports the failure, every role
of the list is as before and no entry of the target user is left updating. -/
theorem updateRole_put_rejected (env : Env) (fuel : Nat) (s s1 : State) (page : Page)
    (id role : String) (e : AxiosError)
    (h : umhwApi env fuel s (mkConfig "put" ("/admin/users/" ++ id ++ "/role")) =
      (s1, some (.rejected e))) :
    ∃ page1, updateRole env fuel s page id role = some (s1, page1) ∧
      page1.error = "Failed to update role" ∧
      page1.users.map User.role = page.users.map User.role ∧
      (∀ u ∈ page1.users, u.id = id → u.updating = false) := by
  refine ⟨(updateRoleFailed s1
      { page with users := page.users.map (fun (u : User) =>
          if u.id = id then { u with updating := true } else u) } id).2,
    by simp [updateRole, h, updateRoleFailed], rfl, ?_, ?_⟩
  · simp only [updateRoleFailed, List.map_map]
    apply List.map_congr_left
    intro u _
    by_cases hu : u.id = id <;> simp [hu]
  · intro u hu hid
    simp only [updateRoleFailed, List.map_map, List.mem_map, Function.comp_apply] at hu
    obtain ⟨v, _, rfl⟩ := hu
    by_cases hv : v.id = id
    · simp [hv]
    · simp [hv] at hid

/-- C26, at the failing input: the admin changes the role of user `8` to `doctor`; the
role change succeeds and the profile lookup that follows fails without a response.
`updateRole` ends by reporting `Failed to update role`, yet the role of user `8` in the
list is `doctor`, not its value `patient` from before the call. -/
theorem updateRole_reports_failure_after_role_change (fuel : Nat) :
    updateRole profileFailsEnv (fuel + 1) readyState samplePage "8" "doctor" =
      some
        ({ accessToken := some "t1", csrfToken := some "c0", location := "/app",
           log := [Event.send { mkConfig "put" "/admin/users/8/role" with
                     authorization := some "Bearer t1", xCsrfToken := some "c0" },
                   Event.send { mkConfig "get" "/profile/profile" with
                     authorization := some "Bearer t1" }] },
         { users := [{ id := "7", role := "admin", updating := false },
                     { id := "8", role := "doctor", updating := false }],
           error := "Failed to update role",
           successMessage := "✅ Role updated successfully",
           alerts := [] }) ∧
    samplePage.users.map User.role = ["admin", "patient"] := by
  exact ⟨rfl, rfl⟩

end AdminDashboard

/-! ## Redirects of the route table -/

namespace App

/-- C30: for every login state and every decoded role, following the redirects of the
route table from any route reaches a route that renders a component after at most 2
redirects, and the routes visited on the way are pairwise different: the table has no
redirect cycle. -/
theorem redirects_reach_component (isLogged : Bool) (role : Option String) (route : Route) :
    (∃ name, follow isLogged role 2 route = some name) ∧
    (visited isLogged role 2 route).Nodup ∧
    (visited isLogged role 2 route).length ≤ 3 := by
  by_cases hr : role = some "admin"
  · subst hr
    cases isLogged <;> cases route <;>
      exact ⟨⟨_, rfl⟩, by decide, by decide⟩
  · have hb : (role != some "admin") = true := by simpa using hr
    have hb1 : (role == some "admin") = false := by simpa using hr
    cases isLogged <;> cases route <;>
      simp [follow, visited, routeElement, targetRoute, hr, hb, hb1]

/-- The bound 2 is reached: a logged-in user who is not an admin is sent from `/admin` to
`/` and from there to `/dashboard`. -/
theorem redirects_twice_from_admin :
    visited true (some "patient") 2 .admin = [.admin, .root, .dashboard] ∧
    follow true (some "patient") 1 .admin = none ∧
    follow true (some "patient") 2 .admin = some "Dashboard" := by
  decide

end App
